import Mathlib

/-! # Empire: the per-tick update engine of `World`

A shallow embedding of `Source/Sim/World.cpp`: the coordinate wrap
(`World::tryWrap`), the colour lookup (`World::getColorAt`) and the per-cell
body of `World::update` together with its two local lambdas `endAlive` and
`endDead`, followed by the theorems that settle the specification's claims.

Conventions of the embedding.

* C++ `int` and `unsigned` are 32 bits wide.  Values are `Int`/`Nat`; every
  conversion the source performs is written out with `toInt32`/`toUInt32`.
* `Person`, `Grid`, `Map`, `ColonyStatsManager`, `Config` and
  `randomCellForEach` are declared in headers that are not part of the
  sources at hand.  The agent type is a type parameter `P` and its member
  functions are the fields of `PersonOps P`; the terrain map, the colony
  table and the configuration are parameters collected in `Env`.
* References into the current grid (`auto& person = m_people(x, y)`) are
  cell addresses: every member call through the reference reads the current
  grid at that cell, every mutating call writes the cell back.
-/

namespace Empire

/-! ## Machine integers -/

/-- Conversion of an integer value to a 32 bit `int` (two's complement). -/
def toInt32 (v : Int) : Int := (v + 2147483648) % 4294967296 - 2147483648

/-- Conversion of an integer value to a 32 bit `unsigned`. -/
def toUInt32 (v : Int) : Nat := (v % 4294967296).toNat

/-! ## Configuration -/

/-- The fields of `Config` read by `World.cpp`.  `width` and `height` are
`unsigned` (the source casts them with `(int)`), `reproductionThreshold` is an
`int` (the source casts it with `(unsigned)`). -/
structure Config where
  width : Nat
  height : Nat
  reproductionThreshold : Int

/-! ## `World::tryWrap` -/

/-- One axis of `World::tryWrap`:
`if (x < 0) x = (width - 1) + x; else if (x >= (int)width) x = x - width;`
The arithmetic is carried out in `unsigned` and stored into an `int`. -/
def tryWrapAxis (dim : Nat) (v : Int) : Int :=
  if v < 0 then toInt32 (((dim : Int) - 1) + v)
  else if v ≥ toInt32 (dim : Int) then toInt32 (v - (dim : Int))
  else v

/-- The function `World::tryWrap(int& x, int& y)`: both axes are rewritten, the
pair returned is the new value of `(x, y)`. -/
def tryWrap (cfg : Config) (x y : Int) : Int × Int :=
  (tryWrapAxis cfg.width x, tryWrapAxis cfg.height y)

/-! ## Agents, grids, registry and image -/

/-- The record `ChildData`, with the three fields `World::createColonies`
fills in. -/
structure ChildData where
  strength : Nat
  isDiseased : Bool
  colony : Nat
deriving DecidableEq

/-- The member functions of `Person` called by `World.cpp`, over an arbitrary
agent type `P`.  Queries return a value; a mutating member returns the new
state of the object it is called on.  `fight` takes the mover and the
defender (`person.fight(movePerson)`, the argument is a non-const reference)
and returns the new state of both; `getChild` returns the child data and the
new state of the parent; `init p data` is `p.init(data)`.  `newPerson` is the
default-constructed `Person` that fills a new `Grid<Person>`. -/
structure PersonOps (P : Type) where
  newPerson : P
  isAlive : P → Bool
  getColony : P → Nat
  getStrength : P → Nat
  getProduction : P → Nat
  isDiseased : P → Bool
  update : P → P
  giveDisease : P → P
  fight : P → P → P × P
  getChild : P → ChildData × P
  init : P → ChildData → P
  kill : P → P

/-- A grid coordinate as handed to `Grid::operator()`. -/
abbrev Cell := Int × Int

/-- The container `Grid<Person>`: one agent slot per coordinate.  `Grid.h` is
not among the sources; slots are addressed by the coordinate pair itself, so
two different pairs never share a slot. -/
abbrev Grid (P : Type) := Cell → P

/-- Assignment through the reference returned by `Grid::operator()`. -/
def Grid.set {P : Type} (g : Grid P) (c : Cell) (v : P) : Grid P :=
  fun d => if d = c then v else g d

/-- The cell `(x, y)` of the visitation callback, whose arguments are
`unsigned`. -/
def cellOf (x y : Nat) : Cell := ((x : Int), (y : Int))

/-- The type `sf::Color`. -/
structure Color where
  r : Nat
  g : Nat
  b : Nat
  a : Nat
deriving DecidableEq

/-- The pixels of an `sf::Image`. -/
abbrev Image := Nat × Nat → Color

/-- The call `image.setPixel(x, y, colour)`. -/
def Image.setPixel (img : Image) (x y : Nat) (c : Color) : Image :=
  fun p => if p = (x, y) then c else img p

/-- Modelled from the spec: the running aggregate counters of
`ColonyStatsManager` (the colony registry), one population counter and one
total strength per colony id. -/
structure ColonyStatsManager where
  population : Nat → Nat
  totalStrength : Nat → Nat

/-- Modelled from the spec: `ColonyStatsManager::reset` zeroes the population
and total strength of all colonies. -/
def ColonyStatsManager.reset (_m : ColonyStatsManager) : ColonyStatsManager :=
  { population := fun _ => 0, totalStrength := fun _ => 0 }

/-- Modelled from the spec: `ColonyStatsManager::update(colonyID, strength)`
increments that colony's population by 1 and its total strength by
`strength`. -/
def ColonyStatsManager.update (m : ColonyStatsManager) (colonyID strength : Nat) :
    ColonyStatsManager :=
  { population := fun c => if c = colonyID then m.population c + 1 else m.population c,
    totalStrength :=
      fun c => if c = colonyID then m.totalStrength c + strength else m.totalStrength c }

/-- What `World::update` reads without changing it: the configuration
(`m_pConfig`), the terrain query `m_map.isWaterAt`, the colour column of the
colony table (`m_colonies[i].colour`) and the agent operations. -/
structure Env (P : Type) where
  config : Config
  isWaterAt : Int → Int → Bool
  colour : Nat → Color
  ops : PersonOps P

/-- What the body of the visitation callback of `World::update` reads and
writes: the current grid `m_people`, the local next-generation grid
`newPeople`, the registry `m_colonyStatsManager` and the output image. -/
structure TickState (P : Type) where
  people : Grid P
  newPeople : Grid P
  stats : ColonyStatsManager
  image : Image

/-! ## `World::getColorAt` and `World::update` -/

/-- The function `World::getColorAt(x, y)`:
`m_colonies[m_people(x, y).getColony()].colour`. -/
def getColorAt {P : Type} (env : Env P) (people : Grid P) (x y : Nat) : Color :=
  env.colour (env.ops.getColony (people (cellOf x y)))

/-- The lambda `endAlive` of `World::update`.  `person` is the reference
`m_people(x, y)`; `colonyID` and `strength` are the captured locals. -/
def endAlive {P : Type} (env : Env P) (x y colonyID strength : Nat) (s : TickState P) :
    TickState P :=
  { s with
    newPeople := s.newPeople.set (cellOf x y) (s.people (cellOf x y))
    stats := s.stats.update colonyID strength
    image := s.image.setPixel x y (getColorAt env s.people x y) }

/-- The lambda `endDead` of `World::update`. -/
def endDead {P : Type} (env : Env P) (x y : Nat) (s : TickState P) : TickState P :=
  { s with image := s.image.setPixel x y (getColorAt env s.people x y) }

/-- The destination of a move: `xMoveTo = x + nextMove.x`, `yMoveTo = y +
nextMove.y` stored into `int`s, then `tryWrap(xMoveTo, yMoveTo)`. -/
def moveTo (cfg : Config) (x y : Nat) (nextMove : Int × Int) : Cell :=
  tryWrap cfg (toInt32 ((x : Int) + nextMove.1)) (toInt32 ((y : Int) + nextMove.2))

/-- The tail of the visitation callback (source lines 170 to 185), reached when
the mover did not stay put and did not die in a fight: the mover is copied to
the destination of the next-generation grid, the slot `m_people(x, y)` becomes
the child or is killed, then `endAlive` runs. -/
def relocate {P : Type} (env : Env P) (x y colonyID strength : Nat) (dest : Cell)
    (s : TickState P) : TickState P :=
  let src := cellOf x y
  let s1 : TickState P := { s with newPeople := s.newPeople.set dest (s.people src) }
  let s2 : TickState P :=
    if env.ops.getProduction (s1.people src) ≥ toUInt32 env.config.reproductionThreshold then
      let r := env.ops.getChild (s1.people src)
      { s1 with people := s1.people.set src (env.ops.init r.2 r.1) }
    else
      { s1 with people := s1.people.set src (env.ops.kill (s1.people src)) }
  endAlive env x y colonyID strength s2

/-- The body of the visitation callback of `World::update` for the cell
`(x, y)`; `nextMove` is the value returned by `person.getNextMove()`. -/
def cellStep {P : Type} (env : Env P) (nextMove : Int × Int) (x y : Nat)
    (s : TickState P) : TickState P :=
  let src := cellOf x y
  if env.ops.isAlive (s.people src) = false then s
  else
    let s1 : TickState P := { s with people := s.people.set src (env.ops.update (s.people src)) }
    if env.ops.isAlive (s1.people src) = false then s1
    else
      let colonyID := env.ops.getColony (s1.people src)
      let strength := env.ops.getStrength (s1.people src)
      let dest := moveTo env.config x y nextMove
      if env.isWaterAt dest.1 dest.2 = true then
        endAlive env x y colonyID strength s1
      else if env.ops.getColony (s1.people dest) = colonyID then
        let s2 : TickState P :=
          if env.ops.isDiseased (s1.people dest) = true then
            { s1 with people := s1.people.set src (env.ops.giveDisease (s1.people src)) }
          else s1
        endAlive env x y colonyID strength s2
      else if env.ops.getColony (s1.people dest) ≠ colonyID then
        if env.ops.isAlive (s1.people dest) = true then
          let r := env.ops.fight (s1.people src) (s1.people dest)
          let s2 : TickState P := { s1 with people := (s1.people.set src r.1).set dest r.2 }
          if env.ops.isAlive (s2.people src) = false then endDead env x y s2
          else relocate env x y colonyID strength dest s2
        else relocate env x y colonyID strength dest s1
      else relocate env x y colonyID strength dest s1

/-- One entry of the visitation order: the cell handed to the callback and
the move `getNextMove()` returns there. -/
structure Visit where
  x : Nat
  y : Nat
  nextMove : Int × Int

/-- The state of a `World` between two ticks. -/
structure World (P : Type) where
  m_people : Grid P
  m_colonyStatsManager : ColonyStatsManager

/-- The state in which the callback of `World::update` runs first:
`Grid<Person> newPeople(width, height)` holds default agents and
`m_colonyStatsManager.reset()` has run. -/
def tickStart {P : Type} (env : Env P) (w : World P) (image : Image) : TickState P :=
  { people := w.m_people
    newPeople := fun _ => env.ops.newPerson
    stats := w.m_colonyStatsManager.reset
    image := image }

/-- Modelled from the spec: `randomCellForEach(config, f)`, declared in
`Util/Common.h`, calls `f` once for each cell of the grid, in a random
permutation.  The permutation, together with the move `getNextMove()` draws at
each cell, is the list `order`. -/
def randomCellForEach {S : Type} (order : List Visit) (f : Visit → S → S) (s : S) : S :=
  order.foldl (fun t v => f v t) s

/-- The function `World::update(image)`: a new grid of default agents, the
registry reset, the callback run over the cells, then
`m_people = std::move(newPeople)`. -/
def update {P : Type} (env : Env P) (order : List Visit) (w : World P) (image : Image) :
    World P × Image :=
  let s := randomCellForEach order (fun v t => cellStep env v.nextMove v.x v.y t)
    (tickStart env w image)
  ({ m_people := s.newPeople, m_colonyStatsManager := s.stats }, s.image)

/-! ## Vocabulary of the statements -/

/-- The agent of cell `(x, y)` as `person.update()` leaves it. -/
def mover {P : Type} (env : Env P) (x y : Nat) (s : TickState P) : P :=
  env.ops.update (s.people (cellOf x y))

/-- The occupant `movePerson` the callback finds at the destination: the
current grid is read after `person.update()` has been applied at `(x, y)`. -/
def occupant {P : Type} (env : Env P) (nextMove : Int × Int) (x y : Nat) (s : TickState P) : P :=
  (s.people.set (cellOf x y) (mover env x y s)) (moveTo env.config x y nextMove)

/-- The colony id and strength of an agent that ends its cell step alive (it
stayed put at water or at an agent of its colony, or it moved, with or without
reproduction), both as they are right after `update()`; `none` when the cell
holds no living agent, when the agent dies in `update()` and when it dies in
the fight. -/
def survivor {P : Type} (env : Env P) (nextMove : Int × Int) (x y : Nat) (s : TickState P) :
    Option (Nat × Nat) :=
  let p := mover env x y s
  let o := occupant env nextMove x y s
  let dest := moveTo env.config x y nextMove
  if env.ops.isAlive (s.people (cellOf x y)) = false then none
  else if env.ops.isAlive p = false then none
  else if env.isWaterAt dest.1 dest.2 = true then some (env.ops.getColony p, env.ops.getStrength p)
  else if env.ops.getColony o = env.ops.getColony p then
    some (env.ops.getColony p, env.ops.getStrength p)
  else if env.ops.isAlive o = true ∧ env.ops.isAlive (env.ops.fight p o).1 = false then none
  else some (env.ops.getColony p, env.ops.getStrength p)

/-- The number of visits of an order, run from state `s`, whose agent ends
its cell step alive with colony id `c`. -/
def survivorCount {P : Type} (env : Env P) (c : Nat) : List Visit → TickState P → Nat
  | [], _ => 0
  | v :: vs, s =>
    (if (survivor env v.nextMove v.x v.y s).map Prod.fst = some c then 1 else 0)
      + survivorCount env c vs (cellStep env v.nextMove v.x v.y s)

/-- The number of living agents of colony `c` on the cells of the grid,
`[0, width) x [0, height)`. -/
def livingCount {P : Type} (env : Env P) (g : Grid P) (c : Nat) : Nat :=
  ((List.range env.config.width).map (fun x =>
    ((List.range env.config.height).filter (fun y =>
      env.ops.isAlive (g (cellOf x y)) && decide (env.ops.getColony (g (cellOf x y)) = c))).length)).sum

/-! ## A concrete agent type

`Person.h` and `Person.cpp` are not among the sources.  The theorems below hold
for every agent type and all agent operations; the record and the operations
of this section instantiate them on concrete boards. -/

/-- Modelled from the spec: the agent record of the data model, with the
fields `alive`, `colonyId`, `strength`, `diseased` and `productionCounter`. -/
structure Person where
  alive : Bool
  colony : Nat
  strength : Nat
  diseased : Bool
  production : Nat
deriving DecidableEq

/-- Modelled from the spec: `Person::kill` sets `alive` to false. -/
def Person.kill (p : Person) : Person := { p with alive := false }

/-- Modelled from the spec: agent operations that follow the lifecycle of the
data model.  `init` makes the slot a living agent with the colony, strength
and disease flag of the child data; `update` accrues one unit of production,
and a diseased agent loses one point of strength and dies when none is left;
`giveDisease` sets the disease flag; `fight` is a contest of strength that
kills the mover when the defender is strictly stronger and the defender
otherwise; `getChild` describes a healthy child of the same colony and
strength and resets the production of the parent.  A default agent is an empty
slot of the sentinel colony 0. -/
def personOps : PersonOps Person where
  newPerson := { alive := false, colony := 0, strength := 0, diseased := false, production := 0 }
  isAlive p := p.alive
  getColony p := p.colony
  getStrength p := p.strength
  getProduction p := p.production
  isDiseased p := p.diseased
  update p :=
    if p.diseased = true then
      if p.strength ≤ 1 then { p with alive := false, strength := 0 }
      else { p with strength := p.strength - 1, production := p.production + 1 }
    else { p with production := p.production + 1 }
  giveDisease p := { p with diseased := true }
  fight p o := if o.strength > p.strength then (p.kill, o) else (p, o.kill)
  getChild p :=
    ({ strength := p.strength, isDiseased := false, colony := p.colony },
     { p with production := 0 })
  init p d :=
    { p with alive := true, colony := d.colony, strength := d.strength, diseased := d.isDiseased }
  kill p := p.kill

/-- A world of 4 x 4 cells whose last column is water, with reproduction
threshold 8; colony `c` is drawn in the grey level `c`. -/
def demoEnv : Env Person where
  config := { width := 4, height := 4, reproductionThreshold := 8 }
  isWaterAt x _ := decide (x = 3)
  colour c := { r := c, g := c, b := c, a := 255 }
  ops := personOps

/-- A board for `demoEnv`.  At `(1, 1)` an agent of colony 1 with strength 5,
one update short of the reproduction threshold; below it at `(1, 2)` a
diseased agent of its colony; to its right at `(2, 1)` a stronger agent of
colony 2, above it at `(1, 0)` a weaker agent of colony 2; at `(2, 2)` an
agent of colony 2 next to the water.  All other cells are empty. -/
def demoPeople : Grid Person := fun c =>
  if c = (1, 1) then { alive := true, colony := 1, strength := 5, diseased := false, production := 7 }
  else if c = (1, 2) then { alive := true, colony := 1, strength := 4, diseased := true, production := 0 }
  else if c = (2, 1) then { alive := true, colony := 2, strength := 9, diseased := false, production := 0 }
  else if c = (1, 0) then { alive := true, colony := 2, strength := 1, diseased := false, production := 0 }
  else if c = (2, 2) then { alive := true, colony := 2, strength := 3, diseased := false, production := 2 }
  else personOps.newPerson

/-- The image before any pixel is set: black everywhere. -/
def blankImage : Image := fun _ => { r := 0, g := 0, b := 0, a := 255 }

/-- The state at the start of a tick on `demoPeople`: an empty next-generation
grid and a reset registry. -/
def demoStart : TickState Person where
  people := demoPeople
  newPeople := fun _ => personOps.newPerson
  stats := { population := fun _ => 0, totalStrength := fun _ => 0 }
  image := blankImage

/-- A board for `demoEnv` with a single agent, at `(1, 1)`: colony 1, strength
5, one update short of the reproduction threshold. -/
def lonePeople : Grid Person := fun c =>
  if c = (1, 1) then { alive := true, colony := 1, strength := 5, diseased := false, production := 7 }
  else personOps.newPerson

/-- The world holding `lonePeople`. -/
def loneWorld : World Person where
  m_people := lonePeople
  m_colonyStatsManager := { population := fun _ => 0, totalStrength := fun _ => 0 }

/-- A visitation order over the 16 cells of `demoEnv`, row by row, in which
every agent asked for a move answers `(-1, 0)`, one cell to the left. -/
def rowOrder : List Visit :=
  (List.range 4).flatMap (fun y => (List.range 4).map (fun x => { x := x, y := y, nextMove := (-1, 0) }))

/-! ## The writes of one cell step, as a value

The callback touches the current grid at `(x, y)` and at the destination, the
next-generation grid at the same two cells, one registry entry and one pixel.
`stepEffect` computes these writes from the two agents the callback reads;
`cellStep_eq_apply` below shows that `cellStep` performs exactly them. -/

/-- The writes of one cell step: the new state of `m_people(x, y)` and of
`m_people(xMoveTo, yMoveTo)`, the agents stored into `newPeople` at the
destination and at `(x, y)`, the arguments of the registry update and the
colour of the pixel; `none` where nothing is written. -/
structure Effect (P : Type) where
  person : Option P
  movePerson : Option P
  newDest : Option P
  newSrc : Option P
  stat : Option (Nat × Nat)
  pixel : Option Color

/-- An optional assignment to a grid slot. -/
def Grid.setOpt {P : Type} (g : Grid P) (c : Cell) : Option P → Grid P
  | none => g
  | some v => g.set c v

/-- An optional registry update. -/
def ColonyStatsManager.updateOpt (m : ColonyStatsManager) : Option (Nat × Nat) → ColonyStatsManager
  | none => m
  | some r => m.update r.1 r.2

/-- An optional `setPixel`. -/
def Image.setPixelOpt (img : Image) (x y : Nat) : Option Color → Image
  | none => img
  | some c => img.setPixel x y c

/-- The writes of an effect carried out on a state, for the cell `(x, y)` and
the destination `dest`. -/
def Effect.apply {P : Type} (e : Effect P) (x y : Nat) (dest : Cell) (s : TickState P) :
    TickState P :=
  { people := (s.people.setOpt (cellOf x y) e.person).setOpt dest e.movePerson
    newPeople := (s.newPeople.setOpt dest e.newDest).setOpt (cellOf x y) e.newSrc
    stats := s.stats.updateOpt e.stat
    image := s.image.setPixelOpt x y e.pixel }

/-- The writes of the callback, computed from the agent `person0` found at
`(x, y)`, from `lookup`, which gives the agent found at the destination once
`(x, y)` holds the updated agent, and from whether the destination is
water. -/
def stepEffect {P : Type} (env : Env P) (water : Bool) (person0 : P) (lookup : P → P) :
    Effect P :=
  let none6 : Effect P :=
    { person := none, movePerson := none, newDest := none, newSrc := none,
      stat := none, pixel := none }
  if env.ops.isAlive person0 = false then none6
  else
    let p := env.ops.update person0
    if env.ops.isAlive p = false then { none6 with person := some p }
    else
      let o := lookup p
      let rec0 := (env.ops.getColony p, env.ops.getStrength p)
      if water = true then
        { person := some p, movePerson := none, newDest := none, newSrc := some p,
          stat := some rec0, pixel := some (env.colour (env.ops.getColony p)) }
      else if env.ops.getColony o = env.ops.getColony p then
        let p2 := if env.ops.isDiseased o = true then env.ops.giveDisease p else p
        { person := some p2, movePerson := none, newDest := none, newSrc := some p2,
          stat := some rec0, pixel := some (env.colour (env.ops.getColony p2)) }
      else if env.ops.isAlive o = true then
        let r := env.ops.fight p o
        if env.ops.isAlive r.1 = false then
          { person := some r.1, movePerson := some r.2, newDest := none, newSrc := none,
            stat := none, pixel := some (env.colour (env.ops.getColony r.1)) }
        else
          let p3 :=
            if env.ops.getProduction r.1 ≥ toUInt32 env.config.reproductionThreshold then
              env.ops.init (env.ops.getChild r.1).2 (env.ops.getChild r.1).1
            else env.ops.kill r.1
          { person := some p3, movePerson := some r.2, newDest := some r.1, newSrc := some p3,
            stat := some rec0, pixel := some (env.colour (env.ops.getColony p3)) }
      else
        let p3 :=
          if env.ops.getProduction p ≥ toUInt32 env.config.reproductionThreshold then
            env.ops.init (env.ops.getChild p).2 (env.ops.getChild p).1
          else env.ops.kill p
        { person := some p3, movePerson := none, newDest := some p, newSrc := some p3,
          stat := some rec0, pixel := some (env.colour (env.ops.getColony p3)) }

/-- The mover as it stands when the fight, if there is one, is over: the
first component of `person.fight(movePerson)` when the occupant of the
destination is alive, the agent as `update()` left it otherwise. -/
def fighter {P : Type} (env : Env P) (nextMove : Int × Int) (x y : Nat) (s : TickState P) : P :=
  if env.ops.isAlive (occupant env nextMove x y s) = true then
    (env.ops.fight (mover env x y s) (occupant env nextMove x y s)).1
  else mover env x y s

/-- The coordinates of the grid: `[0, width) x [0, height)`. -/
def inGrid (cfg : Config) (c : Cell) : Prop :=
  0 ≤ c.1 ∧ c.1 < (cfg.width : Int) ∧ 0 ≤ c.2 ∧ c.2 < (cfg.height : Int)

/-- The world holding `demoPeople`. -/
def demoWorld : World Person where
  m_people := demoPeople
  m_colonyStatsManager := { population := fun _ => 0, totalStrength := fun _ => 0 }

/-- The visitation order `rowOrder` with every agent asked for a move
answering `(1, 0)`, one cell to the right, towards the water of `demoEnv`. -/
def eastOrder : List Visit :=
  (List.range 4).flatMap (fun y => (List.range 4).map (fun x => { x := x, y := y, nextMove := (1, 0) }))

/-! ## `World::createColonies` -/

/-- Modelled from the spec: `Random::intInRange(low, high)`, declared in
`Util/Random.h`, returns an integer of `[low, high]`; `raw` is the raw output
of the generator the call consumes. -/
def intInRange (low high : Int) (raw : Nat) : Int :=
  low + (raw : Int) % (high - low + 1)

/-- The fields of an entry of `m_colonies` read by `World::createColonies`. -/
structure Colony where
  startPeople : Nat
  strLow : Int
  strHigh : Int

/-- What the loops of `World::createColonies` read and write: the grid
`m_people`, the number of values drawn from the random generator so far, and
the calls `m_people(newLocationX, newLocationY).init(data)` made so far, the
latest first. -/
structure Seeding (P : Type) where
  people : Grid P
  drawn : Nat
  placed : List (Cell × ChildData)

/-- The body of the inner loop of `World::createColonies` for colony `i`,
whose seed is `location`; `rand k` is the raw output of the generator at its
`k`-th call.  The two offsets are always drawn; a location out of bounds or on
water ends the iteration (`continue`). -/
def placePerson {P : Type} (env : Env P) (rand : Nat → Nat) (location : Int × Int) (i : Nat)
    (col : Colony) (st : Seeding P) : Seeding P :=
  let xOffset := intInRange (-5) 5 (rand st.drawn)
  let yOffset := intInRange (-5) 5 (rand (st.drawn + 1))
  let newLocationX := toInt32 (xOffset + location.1)
  let newLocationY := toInt32 (yOffset + location.2)
  let st1 : Seeding P := { st with drawn := st.drawn + 2 }
  if newLocationX < 0 ∨ newLocationX ≥ toInt32 (env.config.width : Int) then st1
  else if newLocationY < 0 ∨ newLocationY ≥ toInt32 (env.config.height : Int) then st1
  else if env.isWaterAt newLocationX newLocationY = true then st1
  else
    let data : ChildData :=
      { strength := toUInt32 (intInRange col.strLow col.strHigh (rand st1.drawn))
        isDiseased := false
        colony := i }
    { people := st1.people.set (newLocationX, newLocationY)
        (env.ops.init (st1.people (newLocationX, newLocationY)) data)
      drawn := st1.drawn + 1
      placed := ((newLocationX, newLocationY), data) :: st1.placed }

/-- The inner loop of `World::createColonies`: `count` iterations of the body,
`count` being `m_colonies[i].startPeople`. -/
def placeColony {P : Type} (env : Env P) (rand : Nat → Nat) (location : Int × Int) (i : Nat)
    (col : Colony) : Nat → Seeding P → Seeding P
  | 0, st => st
  | count + 1, st => placeColony env rand location i col count (placePerson env rand location i col st)

/-- The outer loop of `World::createColonies` from index `i` on; `rest` holds
the entries `m_colonies[i]`, `m_colonies[i + 1]`, and so on. -/
def placeColonies {P : Type} (env : Env P) (rand : Nat → Nat) (locations : Nat → Int × Int) :
    Nat → List Colony → Seeding P → Seeding P
  | _, [], st => st
  | i, col :: rest, st =>
    placeColonies env rand locations (i + 1) rest
      (placeColony env rand (locations i) i col col.startPeople st)

/-- The placement loops of `World::createColonies`.  `locations` and
`colonies` are the results of `createColonyLocations` and `createColonyStats`
of the colony creator (neither is among the sources); the outer loop starts at
index 1. -/
def createColonies {P : Type} (env : Env P) (locations : Nat → Int × Int)
    (colonies : List Colony) (rand : Nat → Nat) (people : Grid P) : Seeding P :=
  placeColonies env rand locations 1 colonies.tail { people := people, drawn := 0, placed := [] }

/-- The number of `init` calls of a trace made for colony `i`. -/
def placedFor (placed : List (Cell × ChildData)) (i : Nat) : Nat :=
  placed.countP (fun e => decide (e.2.colony = i))

/-- A seeding of `demoEnv` with two colonies: colony 1 with 3 people around
`(1, 1)` and colony 2 with 2 people around `(2, 2)`; entry 0 is the sentinel. -/
def demoColonies : List Colony :=
  [{ startPeople := 0, strLow := 0, strHigh := 0 },
   { startPeople := 3, strLow := 2, strHigh := 6 },
   { startPeople := 2, strLow := 4, strHigh := 9 }]

/-- The seed locations of `demoColonies`. -/
def demoLocations : Nat → Int × Int := fun i => if i = 1 then (1, 1) else (2, 2)

/-- A raw random stream for the demos. -/
def demoRand : Nat → Nat := fun k => 4 + (k * k + k / 2) % 4

/-- What the placement claim says of one `init` call `e` of a seeding: the
cell is a cell of the grid, is not water and is at most 5 cells away in each
axis from the seed of the colony named by the child data, whose colony id is
at least 1 and which is not diseased. -/
def wellPlaced {P : Type} (env : Env P) (locations : Nat → Int × Int)
    (e : Cell × ChildData) : Prop :=
  inGrid env.config e.1
  ∧ env.isWaterAt e.1.1 e.1.2 = false
  ∧ (-5 ≤ e.1.1 - (locations e.2.colony).1 ∧ e.1.1 - (locations e.2.colony).1 ≤ 5)
  ∧ (-5 ≤ e.1.2 - (locations e.2.colony).2 ∧ e.1.2 - (locations e.2.colony).2 ≤ 5)
  ∧ 1 ≤ e.2.colony
  ∧ e.2.isDiseased = false

/-- The grid obtained from `people` by carrying out a trace of calls
`m_people(c).init(data)`, the oldest call (the last entry) first: each call
replaces the slot at its cell by `init` applied to the slot found there. -/
def replayInit {P : Type} (ops : PersonOps P) : List (Cell × ChildData) → Grid P → Grid P
  | [], people => people
  | e :: rest, people =>
    (replayInit ops rest people).set e.1 (ops.init (replayInit ops rest people e.1) e.2)

/-! ## Basic facts -/

theorem toInt32_of_fits (v : Int) (h1 : -2147483648 ≤ v) (h2 : v < 2147483648) :
    toInt32 v = v := by
  unfold toInt32
  omega

@[simp]
theorem Grid.set_same {P : Type} (g : Grid P) (c : Cell) (v : P) : (g.set c v) c = v := by
  simp [Grid.set]

theorem Grid.set_other {P : Type} (g : Grid P) (c d : Cell) (v : P) (h : d ≠ c) :
    (g.set c v) d = g d := by
  simp [Grid.set, h]

@[simp]
theorem Grid.set_set {P : Type} (g : Grid P) (c : Cell) (v w : P) :
    (g.set c v).set c w = g.set c w := by
  funext d
  by_cases h : d = c <;> simp [Grid.set, h]

/-! ## The coordinate wrap -/

/-- C1 (the code at the failing input): on a grid of width 10 the column left
of column 0 is wrapped to column 8 although `-1 mod 10 = 9`, and the column
`-10` is wrapped to `-1`, outside `[0, 10)`. -/
theorem tryWrap_left_edge_off_by_one :
    tryWrap { width := 10, height := 10, reproductionThreshold := 8 } (-1) 0 = (8, 0)
    ∧ ((-1 : Int) % 10, (0 : Int) % 10) = (9, 0)
    ∧ tryWrap { width := 10, height := 10, reproductionThreshold := 8 } (-10) 0 = (-1, 0) := by
  decide

/-- C2: when width, height, the coordinates and the results fit in an `int`,
`tryWrap` replaces `x` by `width - 1 + x` when `x < 0`, by `x - width` when
`x >= width`, and leaves it unchanged otherwise; `y` is rewritten by the same
rule with the height, whatever the value of `x`. -/
theorem tryWrap_rule (cfg : Config) (x y : Int)
    (hw : (cfg.width : Int) < 2147483648) (hh : (cfg.height : Int) < 2147483648)
    (hx : -2147483648 ≤ x ∧ x < 2147483648) (hy : -2147483648 ≤ y ∧ y < 2147483648)
    (hfx : -2147483648 ≤ (cfg.width : Int) - 1 + x)
    (hfy : -2147483648 ≤ (cfg.height : Int) - 1 + y) :
    (tryWrap cfg x y).1
        = (if x < 0 then (cfg.width : Int) - 1 + x
           else if x ≥ (cfg.width : Int) then x - (cfg.width : Int) else x)
    ∧ (tryWrap cfg x y).2
        = (if y < 0 then (cfg.height : Int) - 1 + y
           else if y ≥ (cfg.height : Int) then y - (cfg.height : Int) else y)
    ∧ ∀ x2 : Int, (tryWrap cfg x2 y).2 = (tryWrap cfg x y).2 := by
  have hwn : (0 : Int) ≤ (cfg.width : Int) := Int.ofNat_nonneg _
  have hhn : (0 : Int) ≤ (cfg.height : Int) := Int.ofNat_nonneg _
  refine ⟨?_, ?_, fun _ => rfl⟩
  · simp only [tryWrap, tryWrapAxis]
    rw [toInt32_of_fits (cfg.width : Int) (by omega) hw]
    split_ifs with h1 h2
    · exact toInt32_of_fits _ (by omega) (by omega)
    · exact toInt32_of_fits _ (by omega) (by omega)
    · rfl
  · simp only [tryWrap, tryWrapAxis]
    rw [toInt32_of_fits (cfg.height : Int) (by omega) hh]
    split_ifs with h1 h2
    · exact toInt32_of_fits _ (by omega) (by omega)
    · exact toInt32_of_fits _ (by omega) (by omega)
    · rfl

/-- Witness of C2 on a 10 x 7 grid at `(-3, 9)`, which is wrapped to `(6, 2)`. -/
theorem tryWrap_rule_witness :
    (tryWrap { width := 10, height := 7, reproductionThreshold := 8 } (-3) 9).1 = 6
    ∧ (tryWrap { width := 10, height := 7, reproductionThreshold := 8 } (-3) 9).2 = 2 := by
  have h := tryWrap_rule { width := 10, height := 7, reproductionThreshold := 8 } (-3) 9
    (by decide) (by decide) (by decide) (by decide) (by decide) (by decide)
  exact ⟨h.1.trans (by decide), h.2.1.trans (by decide)⟩

/-! ## The branches of the callback -/

section Branches

variable {P : Type} (env : Env P) (nextMove : Int × Int) (x y : Nat) (s : TickState P)

theorem occupant_ne_src
    (h : env.ops.getColony (occupant env nextMove x y s) ≠ env.ops.getColony (mover env x y s)) :
    moveTo env.config x y nextMove ≠ cellOf x y := by
  intro heq
  apply h
  simp [occupant, heq]

theorem occupant_of_ne (h : moveTo env.config x y nextMove ≠ cellOf x y) :
    occupant env nextMove x y s = s.people (moveTo env.config x y nextMove) := by
  simp [occupant, Grid.set, h]

theorem cellStep_dead (h : env.ops.isAlive (s.people (cellOf x y)) = false) :
    cellStep env nextMove x y s = s := by
  simp [cellStep, h]

theorem cellStep_died (halive : env.ops.isAlive (s.people (cellOf x y)) = true)
    (hdied : env.ops.isAlive (mover env x y s) = false) :
    cellStep env nextMove x y s
      = { s with people := s.people.set (cellOf x y) (mover env x y s) } := by
  simp only [mover] at hdied
  simp [cellStep, halive, hdied, mover]

theorem cellStep_water (halive : env.ops.isAlive (s.people (cellOf x y)) = true)
    (hsurv : env.ops.isAlive (mover env x y s) = true)
    (hwater : env.isWaterAt (moveTo env.config x y nextMove).1
      (moveTo env.config x y nextMove).2 = true) :
    cellStep env nextMove x y s
      = endAlive env x y (env.ops.getColony (mover env x y s))
          (env.ops.getStrength (mover env x y s))
          { s with people := s.people.set (cellOf x y) (mover env x y s) } := by
  simp only [mover] at hsurv
  simp [cellStep, halive, hsurv, hwater, mover]

theorem cellStep_same (halive : env.ops.isAlive (s.people (cellOf x y)) = true)
    (hsurv : env.ops.isAlive (mover env x y s) = true)
    (hland : env.isWaterAt (moveTo env.config x y nextMove).1
      (moveTo env.config x y nextMove).2 = false)
    (hsame : env.ops.getColony (occupant env nextMove x y s)
      = env.ops.getColony (mover env x y s)) :
    cellStep env nextMove x y s
      = endAlive env x y (env.ops.getColony (mover env x y s))
          (env.ops.getStrength (mover env x y s))
          { s with people := (s.people.set (cellOf x y)
              (if env.ops.isDiseased (occupant env nextMove x y s) = true
               then env.ops.giveDisease (mover env x y s) else mover env x y s)) } := by
  simp only [mover, occupant] at hsurv hsame
  simp only [cellStep, Grid.set_same, halive, hsurv, hland, hsame, mover, occupant]
  by_cases hd : env.ops.isDiseased
      ((s.people.set (cellOf x y) (env.ops.update (s.people (cellOf x y))))
        (moveTo env.config x y nextMove)) = true
  · simp [hd]
  · simp [hd]

theorem cellStep_lost (halive : env.ops.isAlive (s.people (cellOf x y)) = true)
    (hsurv : env.ops.isAlive (mover env x y s) = true)
    (hland : env.isWaterAt (moveTo env.config x y nextMove).1
      (moveTo env.config x y nextMove).2 = false)
    (hdiff : env.ops.getColony (occupant env nextMove x y s)
      ≠ env.ops.getColony (mover env x y s))
    (hocc : env.ops.isAlive (occupant env nextMove x y s) = true)
    (hdead : env.ops.isAlive
      (env.ops.fight (mover env x y s) (occupant env nextMove x y s)).1 = false) :
    cellStep env nextMove x y s
      = endDead env x y
          { s with people := (((s.people.set (cellOf x y)
              (env.ops.fight (mover env x y s) (occupant env nextMove x y s)).1).set
                (moveTo env.config x y nextMove)
                (env.ops.fight (mover env x y s) (occupant env nextMove x y s)).2)) } := by
  have hne := occupant_ne_src env nextMove x y s hdiff
  simp only [mover, occupant] at hsurv hdiff hocc hdead
  simp [cellStep, halive, hsurv, hland, hdiff, hocc, hdead, mover, occupant,
    Grid.set_other _ _ _ _ hne.symm]

theorem cellStep_won (halive : env.ops.isAlive (s.people (cellOf x y)) = true)
    (hsurv : env.ops.isAlive (mover env x y s) = true)
    (hland : env.isWaterAt (moveTo env.config x y nextMove).1
      (moveTo env.config x y nextMove).2 = false)
    (hdiff : env.ops.getColony (occupant env nextMove x y s)
      ≠ env.ops.getColony (mover env x y s))
    (hocc : env.ops.isAlive (occupant env nextMove x y s) = true)
    (hwon : env.ops.isAlive
      (env.ops.fight (mover env x y s) (occupant env nextMove x y s)).1 = true) :
    cellStep env nextMove x y s
      = relocate env x y (env.ops.getColony (mover env x y s))
          (env.ops.getStrength (mover env x y s)) (moveTo env.config x y nextMove)
          { s with people := (((s.people.set (cellOf x y)
              (env.ops.fight (mover env x y s) (occupant env nextMove x y s)).1).set
                (moveTo env.config x y nextMove)
                (env.ops.fight (mover env x y s) (occupant env nextMove x y s)).2)) } := by
  have hne := occupant_ne_src env nextMove x y s hdiff
  simp only [mover, occupant] at hsurv hdiff hocc hwon
  simp [cellStep, halive, hsurv, hland, hdiff, hocc, hwon, mover, occupant,
    Grid.set_other _ _ _ _ hne.symm]

theorem cellStep_free (halive : env.ops.isAlive (s.people (cellOf x y)) = true)
    (hsurv : env.ops.isAlive (mover env x y s) = true)
    (hland : env.isWaterAt (moveTo env.config x y nextMove).1
      (moveTo env.config x y nextMove).2 = false)
    (hdiff : env.ops.getColony (occupant env nextMove x y s)
      ≠ env.ops.getColony (mover env x y s))
    (hocc : env.ops.isAlive (occupant env nextMove x y s) = false) :
    cellStep env nextMove x y s
      = relocate env x y (env.ops.getColony (mover env x y s))
          (env.ops.getStrength (mover env x y s)) (moveTo env.config x y nextMove)
          { s with people := s.people.set (cellOf x y) (mover env x y s) } := by
  simp only [mover, occupant] at hsurv hdiff hocc
  simp [cellStep, halive, hsurv, hland, hdiff, hocc, mover, occupant]

end Branches

/-! ## The cell step as an effect -/

theorem Grid.set_comm {P : Type} (g : Grid P) (c d : Cell) (u v : P) (h : c ≠ d) :
    (g.set c u).set d v = (g.set d v).set c u := by
  funext e
  by_cases h1 : e = c
  · subst h1
    simp [Grid.set, h]
  · by_cases h2 : e = d
    · subst h2
      simp [Grid.set, h1]
    · simp [Grid.set, h1, h2]

theorem cellStep_eq_apply {P : Type} (env : Env P) (nextMove : Int × Int) (x y : Nat)
    (s : TickState P) :
    cellStep env nextMove x y s
      = (stepEffect env
          (env.isWaterAt (moveTo env.config x y nextMove).1 (moveTo env.config x y nextMove).2)
          (s.people (cellOf x y))
          (fun p => (s.people.set (cellOf x y) p) (moveTo env.config x y nextMove))).apply
            x y (moveTo env.config x y nextMove) s := by
  by_cases halive : env.ops.isAlive (s.people (cellOf x y)) = true
  swap
  · have h0 : env.ops.isAlive (s.people (cellOf x y)) = false := by simpa using halive
    rw [cellStep_dead env nextMove x y s h0]
    simp [stepEffect, h0, Effect.apply, Grid.setOpt, ColonyStatsManager.updateOpt,
      Image.setPixelOpt]
  by_cases hsurv : env.ops.isAlive (mover env x y s) = true
  swap
  · have h0 : env.ops.isAlive (mover env x y s) = false := by simpa using hsurv
    rw [cellStep_died env nextMove x y s halive h0]
    simp only [mover] at h0
    simp [stepEffect, halive, h0, Effect.apply, Grid.setOpt, ColonyStatsManager.updateOpt,
      Image.setPixelOpt, mover]
  by_cases hwater : env.isWaterAt (moveTo env.config x y nextMove).1
      (moveTo env.config x y nextMove).2 = true
  · rw [cellStep_water env nextMove x y s halive hsurv hwater]
    simp only [mover] at hsurv
    simp [stepEffect, halive, hsurv, hwater, Effect.apply, Grid.setOpt,
      ColonyStatsManager.updateOpt, Image.setPixelOpt, mover, endAlive, getColorAt]
  have hland : env.isWaterAt (moveTo env.config x y nextMove).1
      (moveTo env.config x y nextMove).2 = false := by simpa using hwater
  by_cases hsame : env.ops.getColony (occupant env nextMove x y s)
      = env.ops.getColony (mover env x y s)
  · rw [cellStep_same env nextMove x y s halive hsurv hland hsame]
    simp only [mover, occupant] at hsurv hsame ⊢
    by_cases hd : env.ops.isDiseased
        ((s.people.set (cellOf x y) (env.ops.update (s.people (cellOf x y))))
          (moveTo env.config x y nextMove)) = true
    · simp [stepEffect, halive, hsurv, hland, hsame, hd, Effect.apply, Grid.setOpt,
        ColonyStatsManager.updateOpt, Image.setPixelOpt, mover, endAlive, getColorAt]
    · simp [stepEffect, halive, hsurv, hland, hsame, hd, Effect.apply, Grid.setOpt,
        ColonyStatsManager.updateOpt, Image.setPixelOpt, mover, endAlive, getColorAt]
  have hne := occupant_ne_src env nextMove x y s hsame
  have hget : ∀ v : P, (s.people.set (cellOf x y) v) (moveTo env.config x y nextMove)
      = s.people (moveTo env.config x y nextMove) := fun v => Grid.set_other _ _ _ _ hne
  by_cases hocc : env.ops.isAlive (occupant env nextMove x y s) = true
  · by_cases hwon : env.ops.isAlive
        (env.ops.fight (mover env x y s) (occupant env nextMove x y s)).1 = true
    · rw [cellStep_won env nextMove x y s halive hsurv hland hsame hocc hwon]
      simp only [mover, occupant, hget] at hsurv hsame hocc hwon ⊢
      by_cases hp : env.ops.getProduction
          (env.ops.fight (env.ops.update (s.people (cellOf x y)))
            (s.people (moveTo env.config x y nextMove))).1
            ≥ toUInt32 env.config.reproductionThreshold
      · simp [stepEffect, halive, hsurv, hland, hsame, hocc, hwon, hne, hp, hget, Effect.apply,
          Grid.setOpt, ColonyStatsManager.updateOpt, Image.setPixelOpt, mover, endAlive,
          getColorAt, relocate, Grid.set_other _ _ _ _ hne.symm,
          Grid.set_comm _ _ _ _ _ hne]
      · simp [stepEffect, halive, hsurv, hland, hsame, hocc, hwon, hne, hp, hget, Effect.apply,
          Grid.setOpt, ColonyStatsManager.updateOpt, Image.setPixelOpt, mover, endAlive,
          getColorAt, relocate, Grid.set_other _ _ _ _ hne.symm,
          Grid.set_comm _ _ _ _ _ hne]
    · have hdead : env.ops.isAlive
          (env.ops.fight (mover env x y s) (occupant env nextMove x y s)).1 = false := by
        simpa using hwon
      rw [cellStep_lost env nextMove x y s halive hsurv hland hsame hocc hdead]
      simp only [mover, occupant, hget] at hsurv hsame hocc hdead ⊢
      simp [stepEffect, halive, hsurv, hland, hsame, hocc, hdead, hne, hget, Effect.apply,
        Grid.setOpt, ColonyStatsManager.updateOpt, Image.setPixelOpt, mover, endDead,
        getColorAt, Grid.set_other _ _ _ _ hne.symm]
  · have hfree : env.ops.isAlive (occupant env nextMove x y s) = false := by simpa using hocc
    rw [cellStep_free env nextMove x y s halive hsurv hland hsame hfree]
    simp only [mover, occupant, hget] at hsurv hsame hfree ⊢
    by_cases hp : env.ops.getProduction (env.ops.update (s.people (cellOf x y)))
          ≥ toUInt32 env.config.reproductionThreshold
    · simp [stepEffect, halive, hsurv, hland, hsame, hfree, hne, hp, hget, Effect.apply,
        Grid.setOpt, ColonyStatsManager.updateOpt, Image.setPixelOpt, mover, endAlive,
        getColorAt, relocate]
    · simp [stepEffect, halive, hsurv, hland, hsame, hfree, hne, hp, hget, Effect.apply,
        Grid.setOpt, ColonyStatsManager.updateOpt, Image.setPixelOpt, mover, endAlive,
        getColorAt, relocate]

theorem Grid.setOpt_other {P : Type} (g : Grid P) (c d : Cell) (o : Option P) (h : d ≠ c) :
    (g.setOpt c o) d = g d := by
  cases o with
  | none => rfl
  | some v => exact Grid.set_other g c d v h

theorem Effect.apply_people_other {P : Type} (e : Effect P) (x y : Nat) (dest : Cell)
    (s : TickState P) (c : Cell) (h1 : c ≠ cellOf x y) (h2 : c ≠ dest) :
    (e.apply x y dest s).people c = s.people c := by
  simp only [Effect.apply]
  rw [Grid.setOpt_other _ _ _ _ h2, Grid.setOpt_other _ _ _ _ h1]

theorem Effect.apply_newPeople_other {P : Type} (e : Effect P) (x y : Nat) (dest : Cell)
    (s : TickState P) (c : Cell) (h1 : c ≠ cellOf x y) (h2 : c ≠ dest) :
    (e.apply x y dest s).newPeople c = s.newPeople c := by
  simp only [Effect.apply]
  rw [Grid.setOpt_other _ _ _ _ h1, Grid.setOpt_other _ _ _ _ h2]

theorem Effect.apply_image_other {P : Type} (e : Effect P) (x y : Nat) (dest : Cell)
    (s : TickState P) (px : Nat × Nat) (h : px ≠ (x, y)) :
    (e.apply x y dest s).image px = s.image px := by
  simp only [Effect.apply]
  cases e.pixel with
  | none => rfl
  | some c => simp [Image.setPixelOpt, Image.setPixel, h]

/-! ## Claims about one cell step -/

/-- C3 (counterexample): on the demo board the agent at `(1, 1)` survives
`update()` with production 8, equal to the threshold, and moves left onto the
empty land cell `(0, 1)`.  After the step the original cell holds a living
agent, not a dead slot, and the destination holds the parent itself, which
differs from the freshly initialised child. -/
theorem reproduction_scenario_counterexample :
    personOps.isAlive (demoStart.people (cellOf 1 1)) = true
    ∧ personOps.isAlive (mover demoEnv 1 1 demoStart) = true
    ∧ personOps.getProduction (mover demoEnv 1 1 demoStart)
        = toUInt32 demoEnv.config.reproductionThreshold
    ∧ moveTo demoEnv.config 1 1 (-1, 0) = (0, 1)
    ∧ demoEnv.isWaterAt 0 1 = false
    ∧ demoStart.people (0, 1) = personOps.newPerson
    ∧ personOps.isAlive ((cellStep demoEnv (-1, 0) 1 1 demoStart).newPeople (cellOf 1 1)) = true
    ∧ (cellStep demoEnv (-1, 0) 1 1 demoStart).newPeople (0, 1)
        ≠ personOps.init (personOps.getChild (mover demoEnv 1 1 demoStart)).2
            (personOps.getChild (mover demoEnv 1 1 demoStart)).1 := by
  decide

/-- C3 (amended): for a living agent that survives `update()`, whose
production equals the reproduction threshold and whose wrapped destination is
a non-water cell holding a non-living slot of another colony id (an empty
cell), the cell step leaves in the next-generation grid the agent itself, as
it is after `update()`, at the destination, and at the agent's original cell
the freshly initialised agent `init(getChild())`. -/
theorem reproduction_parent_moves_child_stays {P : Type} (env : Env P) (nextMove : Int × Int)
    (x y : Nat) (s : TickState P)
    (halive : env.ops.isAlive (s.people (cellOf x y)) = true)
    (hsurv : env.ops.isAlive (mover env x y s) = true)
    (hprod : env.ops.getProduction (mover env x y s)
      = toUInt32 env.config.reproductionThreshold)
    (hland : env.isWaterAt (moveTo env.config x y nextMove).1
      (moveTo env.config x y nextMove).2 = false)
    (hempty : env.ops.isAlive (occupant env nextMove x y s) = false)
    (hdiff : env.ops.getColony (occupant env nextMove x y s)
      ≠ env.ops.getColony (mover env x y s)) :
    (cellStep env nextMove x y s).newPeople (moveTo env.config x y nextMove) = mover env x y s
    ∧ (cellStep env nextMove x y s).newPeople (cellOf x y)
        = env.ops.init (env.ops.getChild (mover env x y s)).2
            (env.ops.getChild (mover env x y s)).1 := by
  have hne := occupant_ne_src env nextMove x y s hdiff
  rw [cellStep_free env nextMove x y s halive hsurv hland hdiff hempty]
  simp [relocate, endAlive, hprod, Grid.set_other _ _ _ _ hne]

/-- Witness of C3 (amended) on the demo board: the agent of `(1, 1)` moves
left onto the empty cell `(0, 1)`. -/
theorem reproduction_parent_moves_child_stays_witness :
    (cellStep demoEnv (-1, 0) 1 1 demoStart).newPeople (moveTo demoEnv.config 1 1 (-1, 0))
        = mover demoEnv 1 1 demoStart
    ∧ (cellStep demoEnv (-1, 0) 1 1 demoStart).newPeople (cellOf 1 1)
        = demoEnv.ops.init (demoEnv.ops.getChild (mover demoEnv 1 1 demoStart)).2
            (demoEnv.ops.getChild (mover demoEnv 1 1 demoStart)).1 :=
  reproduction_parent_moves_child_stays demoEnv (-1, 0) 1 1 demoStart
    (by decide) (by decide) (by decide) (by decide) (by decide) (by decide)
/-- C5: for a living agent at `(x, y)` that is alive after `update()`, whose
wrapped destination is not water and holds an occupant with the agent's own
colony id, the cell step writes the agent, as it stands in the current grid,
into the next-generation grid at `(x, y)`; that agent is alive (an agent that
contracts the disease is still alive after `giveDisease`, hypothesis `hgd`);
when the destination differs from `(x, y)` nothing is written into the
next-generation grid there and the occupant is left as it was in the current
grid. -/
theorem same_colony_non_replacement {P : Type} (env : Env P) (nextMove : Int × Int)
    (x y : Nat) (s : TickState P)
    (halive : env.ops.isAlive (s.people (cellOf x y)) = true)
    (hsurv : env.ops.isAlive (mover env x y s) = true)
    (hland : env.isWaterAt (moveTo env.config x y nextMove).1
      (moveTo env.config x y nextMove).2 = false)
    (hsame : env.ops.getColony (occupant env nextMove x y s)
      = env.ops.getColony (mover env x y s))
    (hgd : env.ops.isDiseased (occupant env nextMove x y s) = true →
      env.ops.isAlive (env.ops.giveDisease (mover env x y s)) = true) :
    (cellStep env nextMove x y s).newPeople (cellOf x y)
        = (if env.ops.isDiseased (occupant env nextMove x y s) = true
           then env.ops.giveDisease (mover env x y s) else mover env x y s)
    ∧ (cellStep env nextMove x y s).newPeople (cellOf x y)
        = (cellStep env nextMove x y s).people (cellOf x y)
    ∧ env.ops.isAlive ((cellStep env nextMove x y s).newPeople (cellOf x y)) = true
    ∧ (moveTo env.config x y nextMove ≠ cellOf x y →
        (cellStep env nextMove x y s).newPeople (moveTo env.config x y nextMove)
          = s.newPeople (moveTo env.config x y nextMove))
    ∧ (moveTo env.config x y nextMove ≠ cellOf x y →
        (cellStep env nextMove x y s).people (moveTo env.config x y nextMove)
          = s.people (moveTo env.config x y nextMove)) := by
  rw [cellStep_same env nextMove x y s halive hsurv hland hsame]
  refine ⟨by simp [endAlive], by simp [endAlive], ?_, ?_, ?_⟩
  · by_cases hd : env.ops.isDiseased (occupant env nextMove x y s) = true
    · simp [endAlive, hd, hgd hd]
    · simp [endAlive, hd, hsurv]
  · intro hne
    simp [endAlive, Grid.set_other _ _ _ _ hne]
  · intro hne
    simp [endAlive, Grid.set_other _ _ _ _ hne]

/-- Witness of C5 on the demo board: the agent of `(1, 1)` moves down onto
`(1, 2)`, held by a diseased agent of its own colony. -/
theorem same_colony_non_replacement_witness :
    (cellStep demoEnv (0, 1) 1 1 demoStart).newPeople (cellOf 1 1)
        = demoEnv.ops.giveDisease (mover demoEnv 1 1 demoStart)
    ∧ demoEnv.ops.isAlive ((cellStep demoEnv (0, 1) 1 1 demoStart).newPeople (cellOf 1 1)) = true
    ∧ (cellStep demoEnv (0, 1) 1 1 demoStart).newPeople (moveTo demoEnv.config 1 1 (0, 1))
        = demoStart.newPeople (moveTo demoEnv.config 1 1 (0, 1))
    ∧ (cellStep demoEnv (0, 1) 1 1 demoStart).people (moveTo demoEnv.config 1 1 (0, 1))
        = demoStart.people (moveTo demoEnv.config 1 1 (0, 1)) := by
  have h := same_colony_non_replacement demoEnv (0, 1) 1 1 demoStart
    (by decide) (by decide) (by decide) (by decide) (by decide)
  exact ⟨h.1.trans (by decide), h.2.2.1, h.2.2.2.1 (by decide), h.2.2.2.2 (by decide)⟩

/-- C6: for a living agent at `(x, y)` that is alive after `update()`, whose
wrapped destination is not water and holds a diseased occupant of the agent's
own colony, the agent stored at `(x, y)` in the next-generation grid after the
step is diseased, given that `giveDisease` sets the diseased flag (`hgive`). -/
theorem disease_contagion {P : Type} (env : Env P) (nextMove : Int × Int)
    (x y : Nat) (s : TickState P)
    (halive : env.ops.isAlive (s.people (cellOf x y)) = true)
    (hsurv : env.ops.isAlive (mover env x y s) = true)
    (hland : env.isWaterAt (moveTo env.config x y nextMove).1
      (moveTo env.config x y nextMove).2 = false)
    (hsame : env.ops.getColony (occupant env nextMove x y s)
      = env.ops.getColony (mover env x y s))
    (hsick : env.ops.isDiseased (occupant env nextMove x y s) = true)
    (hgive : ∀ p : P, env.ops.isDiseased (env.ops.giveDisease p) = true) :
    env.ops.isDiseased ((cellStep env nextMove x y s).newPeople (cellOf x y)) = true := by
  rw [cellStep_same env nextMove x y s halive hsurv hland hsame]
  simp [endAlive, hsick, hgive]

/-- Witness of C6 on the demo board: the healthy agent of `(1, 1)` moves down
onto the diseased agent of its colony at `(1, 2)`. -/
theorem disease_contagion_witness :
    demoEnv.ops.isDiseased (demoStart.people (cellOf 1 1)) = false
    ∧ demoEnv.ops.isDiseased ((cellStep demoEnv (0, 1) 1 1 demoStart).newPeople (cellOf 1 1))
        = true :=
  ⟨by decide, disease_contagion demoEnv (0, 1) 1 1 demoStart
    (by decide) (by decide) (by decide) (by decide) (by decide) (fun _ => rfl)⟩

/-- C9: when the destination is not water and holds a living agent of a
different colony, and the mover is dead after `fight`, the cell step leaves
the next-generation grid and the registry unchanged; its only output is the
pixel of the mover's original cell, set to the colour `getColorAt(x, y)` of
the slot the fight left there, every other pixel being unchanged. -/
theorem lost_fight_frame {P : Type} (env : Env P) (nextMove : Int × Int)
    (x y : Nat) (s : TickState P)
    (halive : env.ops.isAlive (s.people (cellOf x y)) = true)
    (hsurv : env.ops.isAlive (mover env x y s) = true)
    (hland : env.isWaterAt (moveTo env.config x y nextMove).1
      (moveTo env.config x y nextMove).2 = false)
    (hdiff : env.ops.getColony (occupant env nextMove x y s)
      ≠ env.ops.getColony (mover env x y s))
    (hocc : env.ops.isAlive (occupant env nextMove x y s) = true)
    (hdead : env.ops.isAlive
      (env.ops.fight (mover env x y s) (occupant env nextMove x y s)).1 = false) :
    (cellStep env nextMove x y s).newPeople = s.newPeople
    ∧ (cellStep env nextMove x y s).stats = s.stats
    ∧ (cellStep env nextMove x y s).image
        = s.image.setPixel x y (env.colour (env.ops.getColony
            (env.ops.fight (mover env x y s) (occupant env nextMove x y s)).1))
    ∧ (cellStep env nextMove x y s).image
        = s.image.setPixel x y (getColorAt env (cellStep env nextMove x y s).people x y)
    ∧ ∀ px : Nat × Nat, px ≠ (x, y) → (cellStep env nextMove x y s).image px = s.image px := by
  have hne := occupant_ne_src env nextMove x y s hdiff
  rw [cellStep_lost env nextMove x y s halive hsurv hland hdiff hocc hdead]
  refine ⟨rfl, rfl, ?_, rfl, ?_⟩
  · simp [endDead, getColorAt, Grid.set_other _ _ _ _ hne.symm]
  · intro px hpx
    simp [endDead, Image.setPixel, hpx]

/-- Witness of C9 on the demo board: the agent of `(1, 1)`, of strength 5,
moves right onto the agent of colony 2 and strength 9 at `(2, 1)` and dies. -/
theorem lost_fight_frame_witness :
    (cellStep demoEnv (1, 0) 1 1 demoStart).newPeople = demoStart.newPeople
    ∧ (cellStep demoEnv (1, 0) 1 1 demoStart).stats = demoStart.stats
    ∧ (cellStep demoEnv (1, 0) 1 1 demoStart).image
        = demoStart.image.setPixel 1 1 (demoEnv.colour 1) := by
  have h := lost_fight_frame demoEnv (1, 0) 1 1 demoStart
    (by decide) (by decide) (by decide) (by decide) (by decide) (by decide)
  exact ⟨h.1, h.2.1, h.2.2.1⟩

/-- C10: for a living agent at `(x, y)` that survives `update()` and whose
wrapped destination is water, the agent is written, as `update()` left it,
into the next-generation grid at `(x, y)`; its colony's population grows by
one and its total strength by the agent's strength, the other colonies'
counters are unchanged; no other next-generation cell is written; the current
grid changes only by the `update()` at `(x, y)`, and the step is the same for
every `fight` and `giveDisease`: neither is applied. -/
theorem water_blocks_movement {P : Type} (env : Env P) (nextMove : Int × Int)
    (x y : Nat) (s : TickState P)
    (halive : env.ops.isAlive (s.people (cellOf x y)) = true)
    (hsurv : env.ops.isAlive (mover env x y s) = true)
    (hwater : env.isWaterAt (moveTo env.config x y nextMove).1
      (moveTo env.config x y nextMove).2 = true) :
    (cellStep env nextMove x y s).newPeople (cellOf x y) = mover env x y s
    ∧ (cellStep env nextMove x y s).stats.population (env.ops.getColony (mover env x y s))
        = s.stats.population (env.ops.getColony (mover env x y s)) + 1
    ∧ (cellStep env nextMove x y s).stats.totalStrength (env.ops.getColony (mover env x y s))
        = s.stats.totalStrength (env.ops.getColony (mover env x y s))
          + env.ops.getStrength (mover env x y s)
    ∧ (∀ c : Nat, c ≠ env.ops.getColony (mover env x y s) →
        (cellStep env nextMove x y s).stats.population c = s.stats.population c
        ∧ (cellStep env nextMove x y s).stats.totalStrength c = s.stats.totalStrength c)
    ∧ (∀ c : Cell, c ≠ cellOf x y → (cellStep env nextMove x y s).newPeople c = s.newPeople c)
    ∧ (cellStep env nextMove x y s).people = s.people.set (cellOf x y) (mover env x y s)
    ∧ (∀ (f : P → P → P × P) (g : P → P),
        cellStep { env with ops := { env.ops with fight := f, giveDisease := g } } nextMove x y s
          = cellStep env nextMove x y s) := by
  refine ⟨?_, ?_, ?_, ?_, ?_, ?_, ?_⟩
  · rw [cellStep_water env nextMove x y s halive hsurv hwater]
    simp [endAlive]
  · rw [cellStep_water env nextMove x y s halive hsurv hwater]
    simp [endAlive, ColonyStatsManager.update]
  · rw [cellStep_water env nextMove x y s halive hsurv hwater]
    simp [endAlive, ColonyStatsManager.update]
  · intro c hc
    rw [cellStep_water env nextMove x y s halive hsurv hwater]
    simp [endAlive, ColonyStatsManager.update, hc]
  · intro c hc
    rw [cellStep_water env nextMove x y s halive hsurv hwater]
    simp [endAlive, Grid.set_other _ _ _ _ hc]
  · rw [cellStep_water env nextMove x y s halive hsurv hwater]
    rfl
  · intro f g
    rw [cellStep_water env nextMove x y s halive hsurv hwater]
    rw [cellStep_water { env with ops := { env.ops with fight := f, giveDisease := g } }
      nextMove x y s halive hsurv hwater]
    rfl

/-- Witness of C10 on the demo board: the agent of `(2, 2)` moves right onto
the water cell `(3, 2)` and stays. -/
theorem water_blocks_movement_witness :
    (cellStep demoEnv (1, 0) 2 2 demoStart).newPeople (cellOf 2 2) = mover demoEnv 2 2 demoStart
    ∧ (cellStep demoEnv (1, 0) 2 2 demoStart).stats.population 2 = 1
    ∧ (cellStep demoEnv (1, 0) 2 2 demoStart).stats.totalStrength 2 = 3 := by
  have h := water_blocks_movement demoEnv (1, 0) 2 2 demoStart
    (by decide) (by decide) (by decide)
  exact ⟨h.1, h.2.1.trans (by decide), h.2.2.1.trans (by decide)⟩

theorem cellStep_people_other {P : Type} (env : Env P) (nextMove : Int × Int) (x y : Nat)
    (s : TickState P) (c : Cell) (h1 : c ≠ cellOf x y)
    (h2 : c ≠ moveTo env.config x y nextMove) :
    (cellStep env nextMove x y s).people c = s.people c := by
  rw [cellStep_eq_apply]
  exact Effect.apply_people_other _ x y _ s c h1 h2

theorem cellStep_newPeople_other {P : Type} (env : Env P) (nextMove : Int × Int) (x y : Nat)
    (s : TickState P) (c : Cell) (h1 : c ≠ cellOf x y)
    (h2 : c ≠ moveTo env.config x y nextMove) :
    (cellStep env nextMove x y s).newPeople c = s.newPeople c := by
  rw [cellStep_eq_apply]
  exact Effect.apply_newPeople_other _ x y _ s c h1 h2

/-- C7 (counterexample): on the demo board the cell step of the agent at
`(1, 1)` moving left changes the current grid at `(1, 1)`: the slot held a
living agent with production 7 when the tick started and holds the child,
with production 0, after the step; the step of the same agent moving up onto
the weaker agent of colony 2 at `(1, 0)` kills that occupant in the current
grid. -/
theorem current_grid_read_only_counterexample :
    demoStart.people (cellOf 1 1)
        = { alive := true, colony := 1, strength := 5, diseased := false, production := 7 }
    ∧ (cellStep demoEnv (-1, 0) 1 1 demoStart).people (cellOf 1 1)
        = { alive := true, colony := 1, strength := 5, diseased := false, production := 0 }
    ∧ (cellStep demoEnv (-1, 0) 1 1 demoStart).people (cellOf 1 1)
        ≠ demoStart.people (cellOf 1 1)
    ∧ personOps.isAlive (demoStart.people (cellOf 1 0)) = true
    ∧ personOps.isAlive ((cellStep demoEnv (0, -1) 1 1 demoStart).people (cellOf 1 0)) = false := by
  decide

/-- C7 (amended): a cell step changes the current grid at most at the visited
cell `(x, y)` and at the wrapped destination of the move; every other cell of
the current grid holds exactly the agent state it held before the step, and a
step on a cell without a living agent changes no cell of the current grid. -/
theorem current_grid_frame {P : Type} (env : Env P) (nextMove : Int × Int) (x y : Nat)
    (s : TickState P) (c : Cell)
    (h : (c ≠ cellOf x y ∧ c ≠ moveTo env.config x y nextMove)
      ∨ env.ops.isAlive (s.people (cellOf x y)) = false) :
    (cellStep env nextMove x y s).people c = s.people c := by
  rcases h with ⟨h1, h2⟩ | h
  · exact cellStep_people_other env nextMove x y s c h1 h2
  · rw [cellStep_dead env nextMove x y s h]

/-- Witness of C7 (amended) on the demo board: while the agent of `(1, 1)`
fights the occupant of `(1, 0)`, the agent of `(2, 1)` is untouched. -/
theorem current_grid_frame_witness :
    (cellStep demoEnv (0, -1) 1 1 demoStart).people (2, 1) = demoStart.people (2, 1) :=
  current_grid_frame demoEnv (0, -1) 1 1 demoStart (2, 1) (Or.inl ⟨by decide, by decide⟩)

/-! ## The registry over a tick -/

theorem cellStep_stats {P : Type} (env : Env P) (nextMove : Int × Int) (x y : Nat)
    (s : TickState P) :
    (cellStep env nextMove x y s).stats = s.stats.updateOpt (survivor env nextMove x y s) := by
  rw [cellStep_eq_apply]
  simp only [Effect.apply]
  congr 1
  simp only [stepEffect, survivor, mover, occupant]
  split_ifs <;> simp_all

theorem updateOpt_population (m : ColonyStatsManager) (r : Option (Nat × Nat)) (c : Nat) :
    (m.updateOpt r).population c
      = m.population c + (if r.map Prod.fst = some c then 1 else 0) := by
  cases r with
  | none => simp [ColonyStatsManager.updateOpt]
  | some r =>
    by_cases h : c = r.1
    · simp [ColonyStatsManager.updateOpt, ColonyStatsManager.update, h]
    · have h2 : ¬ r.1 = c := fun h3 => h h3.symm
      simp [ColonyStatsManager.updateOpt, ColonyStatsManager.update, h, h2]

theorem randomCellForEach_population {P : Type} (env : Env P) (c : Nat) (order : List Visit) :
    ∀ s : TickState P,
      (randomCellForEach order (fun v t => cellStep env v.nextMove v.x v.y t) s).stats.population c
        = s.stats.population c + survivorCount env c order s := by
  induction order with
  | nil => intro s; simp [randomCellForEach, survivorCount]
  | cons v vs ih =>
    intro s
    have hrun : randomCellForEach (v :: vs) (fun v t => cellStep env v.nextMove v.x v.y t) s
        = randomCellForEach vs (fun v t => cellStep env v.nextMove v.x v.y t)
            (cellStep env v.nextMove v.x v.y s) := by
      simp [randomCellForEach]
    rw [hrun, ih, cellStep_stats, updateOpt_population]
    simp only [survivorCount]
    omega

/-- C4 (counterexample): a full tick on the board with one agent.  The agent
of `(1, 1)` reaches the reproduction threshold and moves left; the new current
grid holds two living agents of colony 1, the parent at `(0, 1)` and the child
at `(1, 1)`, while the registry's population counter of colony 1 is 1. -/
theorem conservation_counterexample :
    (update demoEnv rowOrder loneWorld blankImage).1.m_colonyStatsManager.population 1 = 1
    ∧ livingCount demoEnv (update demoEnv rowOrder loneWorld blankImage).1.m_people 1 = 2
    ∧ personOps.isAlive ((update demoEnv rowOrder loneWorld blankImage).1.m_people (0, 1)) = true
    ∧ personOps.isAlive ((update demoEnv rowOrder loneWorld blankImage).1.m_people (1, 1)) = true := by
  decide

/-- C4 (amended): after a full tick of `World::update`, for every colony the
registry's population counter equals the number of visited cells whose agent
ended its cell step alive (stayed, moved or reproduced) with that colony id
after `update()`: each such agent is counted exactly once, and a cell without
a living agent, an agent that died in `update()` and an agent that died in its
fight are counted zero times, for every visitation order. -/
theorem registry_counts_step_survivors {P : Type} (env : Env P) (order : List Visit)
    (w : World P) (image : Image) (c : Nat) :
    (update env order w image).1.m_colonyStatsManager.population c
      = survivorCount env c order (tickStart env w image) := by
  simp only [update]
  rw [randomCellForEach_population]
  simp [tickStart, ColonyStatsManager.reset]

/-! ## Order of two cell steps -/

theorem Grid.setOpt_comm {P : Type} (g : Grid P) (c d : Cell) (u v : Option P) (h : c ≠ d) :
    (g.setOpt c u).setOpt d v = (g.setOpt d v).setOpt c u := by
  cases u with
  | none => rfl
  | some a =>
    cases v with
    | none => rfl
    | some b => exact Grid.set_comm g c d a b h

theorem ColonyStatsManager.update_comm (m : ColonyStatsManager) (c k d l : Nat) :
    (m.update c k).update d l = (m.update d l).update c k := by
  simp only [ColonyStatsManager.update, ColonyStatsManager.mk.injEq]
  constructor
  · funext e
    split_ifs <;> omega
  · funext e
    split_ifs <;> omega

theorem ColonyStatsManager.updateOpt_comm (m : ColonyStatsManager) (r q : Option (Nat × Nat)) :
    (m.updateOpt r).updateOpt q = (m.updateOpt q).updateOpt r := by
  cases r with
  | none => rfl
  | some a =>
    cases q with
    | none => rfl
    | some b => exact ColonyStatsManager.update_comm m a.1 a.2 b.1 b.2

theorem Image.setPixelOpt_comm (img : Image) (x y x2 y2 : Nat) (u v : Option Color)
    (h : (x, y) ≠ (x2, y2)) :
    (img.setPixelOpt x y u).setPixelOpt x2 y2 v = (img.setPixelOpt x2 y2 v).setPixelOpt x y u := by
  cases u with
  | none => rfl
  | some a =>
    cases v with
    | none => rfl
    | some b =>
      funext p
      by_cases h1 : p = (x, y)
      · subst h1
        simp [Image.setPixelOpt, Image.setPixel, h]
      · by_cases h2 : p = (x2, y2)
        · subst h2
          simp [Image.setPixelOpt, Image.setPixel, h1]
        · simp [Image.setPixelOpt, Image.setPixel, h1, h2]

theorem cellOf_injective (x y x2 y2 : Nat) (h : cellOf x y ≠ cellOf x2 y2) :
    (x, y) ≠ (x2, y2) := by
  intro heq
  apply h
  simp only [Prod.mk.injEq] at heq
  rw [heq.1, heq.2]

theorem Effect.apply_comm {P : Type} (e f : Effect P) (x y x2 y2 : Nat) (d d2 : Cell)
    (s : TickState P) (hsrc : cellOf x y ≠ cellOf x2 y2) (hdst : d ≠ d2)
    (h12 : d ≠ cellOf x2 y2) (h21 : d2 ≠ cellOf x y) :
    f.apply x2 y2 d2 (e.apply x y d s) = e.apply x y d (f.apply x2 y2 d2 s) := by
  simp only [Effect.apply, TickState.mk.injEq]
  refine ⟨?_, ?_, ?_, ?_⟩
  · rw [Grid.setOpt_comm _ d (cellOf x2 y2) _ _ h12,
      Grid.setOpt_comm _ (cellOf x y) (cellOf x2 y2) _ _ hsrc,
      Grid.setOpt_comm _ d d2 _ _ hdst,
      Grid.setOpt_comm _ (cellOf x y) d2 _ _ h21.symm]
  · rw [Grid.setOpt_comm _ (cellOf x y) d2 _ _ h21.symm,
      Grid.setOpt_comm _ d d2 _ _ hdst,
      Grid.setOpt_comm _ (cellOf x y) (cellOf x2 y2) _ _ hsrc,
      Grid.setOpt_comm _ d (cellOf x2 y2) _ _ h12]
  · exact ColonyStatsManager.updateOpt_comm _ _ _
  · exact Image.setPixelOpt_comm _ x y x2 y2 _ _ (cellOf_injective x y x2 y2 hsrc)

theorem cellStep_comm {P : Type} (env : Env P) (mA mB : Int × Int) (xA yA xB yB : Nat)
    (s : TickState P) (hsrc : cellOf xA yA ≠ cellOf xB yB)
    (hdst : moveTo env.config xA yA mA ≠ moveTo env.config xB yB mB)
    (hAB : moveTo env.config xA yA mA ≠ cellOf xB yB)
    (hBA : moveTo env.config xB yB mB ≠ cellOf xA yA) :
    cellStep env mB xB yB (cellStep env mA xA yA s)
      = cellStep env mA xA yA (cellStep env mB xB yB s) := by
  have hB1 := cellStep_people_other env mA xA yA s (cellOf xB yB) hsrc.symm hAB.symm
  have hB2 := cellStep_people_other env mA xA yA s (moveTo env.config xB yB mB) hBA hdst.symm
  have hA1 := cellStep_people_other env mB xB yB s (cellOf xA yA) hsrc hBA.symm
  have hA2 := cellStep_people_other env mB xB yB s (moveTo env.config xA yA mA) hAB hdst
  have hlookB : (fun p => ((cellStep env mA xA yA s).people.set (cellOf xB yB) p)
      (moveTo env.config xB yB mB))
      = (fun p => (s.people.set (cellOf xB yB) p) (moveTo env.config xB yB mB)) := by
    funext p
    simp only [Grid.set, hB2]
  have hlookA : (fun p => ((cellStep env mB xB yB s).people.set (cellOf xA yA) p)
      (moveTo env.config xA yA mA))
      = (fun p => (s.people.set (cellOf xA yA) p) (moveTo env.config xA yA mA)) := by
    funext p
    simp only [Grid.set, hA2]
  rw [cellStep_eq_apply env mB xB yB (cellStep env mA xA yA s), hB1, hlookB,
    cellStep_eq_apply env mA xA yA (cellStep env mB xB yB s), hA1, hlookA,
    cellStep_eq_apply env mA xA yA s, cellStep_eq_apply env mB xB yB s]
  exact Effect.apply_comm _ _ xA yA xB yB _ _ s hsrc hdst hAB hBA
/-- C8 (counterexample): on the demo board the living agents of `(1, 1)` and
`(2, 1)` sit on distinct cells and their moves, right and up, land in the
different cells `(2, 1)` and `(2, 0)`.  When `(1, 1)` steps first it fights
the stronger agent of `(2, 1)` and dies; when `(2, 1)` steps first it has
left, and the agent of `(1, 1)` takes the vacated cell.  Colony 1 is recorded
zero times in one order and once in the other, and the next-generation grid
at `(2, 1)` holds a dead slot in one order and a living agent in the other. -/
theorem tick_order_counterexample :
    cellOf 1 1 ≠ cellOf 2 1
    ∧ personOps.isAlive (demoStart.people (cellOf 1 1)) = true
    ∧ personOps.isAlive (demoStart.people (cellOf 2 1)) = true
    ∧ moveTo demoEnv.config 1 1 (1, 0) = (2, 1)
    ∧ moveTo demoEnv.config 2 1 (0, -1) = (2, 0)
    ∧ (cellStep demoEnv (0, -1) 2 1 (cellStep demoEnv (1, 0) 1 1 demoStart)).stats.population 1 = 0
    ∧ (cellStep demoEnv (1, 0) 1 1 (cellStep demoEnv (0, -1) 2 1 demoStart)).stats.population 1 = 1
    ∧ personOps.isAlive
        ((cellStep demoEnv (0, -1) 2 1 (cellStep demoEnv (1, 0) 1 1 demoStart)).newPeople (2, 1))
        = false
    ∧ personOps.isAlive
        ((cellStep demoEnv (1, 0) 1 1 (cellStep demoEnv (0, -1) 2 1 demoStart)).newPeople (2, 1))
        = true := by
  decide

/-- C8 (amended): for two cell steps at distinct source cells whose moves land
in different destination cells, neither destination being the source cell of
the other step, applying the two steps in either order, with the same move
directions, produces the same next-generation grid and the same registry
counters (and the same current grid and image). -/
theorem tick_order_independence {P : Type} (env : Env P) (mA mB : Int × Int)
    (xA yA xB yB : Nat) (s : TickState P)
    (hsrc : cellOf xA yA ≠ cellOf xB yB)
    (hdst : moveTo env.config xA yA mA ≠ moveTo env.config xB yB mB)
    (hAB : moveTo env.config xA yA mA ≠ cellOf xB yB)
    (hBA : moveTo env.config xB yB mB ≠ cellOf xA yA) :
    (cellStep env mB xB yB (cellStep env mA xA yA s)).newPeople
        = (cellStep env mA xA yA (cellStep env mB xB yB s)).newPeople
    ∧ (cellStep env mB xB yB (cellStep env mA xA yA s)).stats
        = (cellStep env mA xA yA (cellStep env mB xB yB s)).stats
    ∧ (cellStep env mB xB yB (cellStep env mA xA yA s)).people
        = (cellStep env mA xA yA (cellStep env mB xB yB s)).people
    ∧ (cellStep env mB xB yB (cellStep env mA xA yA s)).image
        = (cellStep env mA xA yA (cellStep env mB xB yB s)).image := by
  rw [cellStep_comm env mA mB xA yA xB yB s hsrc hdst hAB hBA]
  exact ⟨rfl, rfl, rfl, rfl⟩

/-- Witness of C8 (amended) on the demo board: the agent of `(1, 1)` moves
left to `(0, 1)` while the agent of `(2, 2)` is held back by the water at
`(3, 2)`. -/
theorem tick_order_independence_witness :
    (cellStep demoEnv (1, 0) 2 2 (cellStep demoEnv (-1, 0) 1 1 demoStart)).newPeople
        = (cellStep demoEnv (-1, 0) 1 1 (cellStep demoEnv (1, 0) 2 2 demoStart)).newPeople
    ∧ (cellStep demoEnv (1, 0) 2 2 (cellStep demoEnv (-1, 0) 1 1 demoStart)).stats
        = (cellStep demoEnv (-1, 0) 1 1 (cellStep demoEnv (1, 0) 2 2 demoStart)).stats := by
  have h := tick_order_independence demoEnv (-1, 0) (1, 0) 1 1 2 2 demoStart
    (by decide) (by decide) (by decide) (by decide)
  exact ⟨h.1, h.2.1⟩

/-! ## Relocation -/

/-- C11: for a living agent at `(x, y)` that is alive after `update()`, whose
wrapped destination is not water and holds a non-living slot of another colony
id, and whose production is below the reproduction threshold: the destination
differs from `(x, y)`; after the step the next-generation grid holds the agent
exactly as `update()` left it (alive, same colony and strength) at the
destination and the killed slot at `(x, y)`, which is dead given that `kill`
clears the alive flag (`hkill`); the step is the same for every `fight`, so no
fight is invoked. -/
theorem relocation_without_fight {P : Type} (env : Env P) (nextMove : Int × Int)
    (x y : Nat) (s : TickState P)
    (halive : env.ops.isAlive (s.people (cellOf x y)) = true)
    (hsurv : env.ops.isAlive (mover env x y s) = true)
    (hland : env.isWaterAt (moveTo env.config x y nextMove).1
      (moveTo env.config x y nextMove).2 = false)
    (hempty : env.ops.isAlive (occupant env nextMove x y s) = false)
    (hdiff : env.ops.getColony (occupant env nextMove x y s)
      ≠ env.ops.getColony (mover env x y s))
    (hprod : env.ops.getProduction (mover env x y s)
      < toUInt32 env.config.reproductionThreshold)
    (hkill : env.ops.isAlive (env.ops.kill (mover env x y s)) = false) :
    moveTo env.config x y nextMove ≠ cellOf x y
    ∧ (cellStep env nextMove x y s).newPeople (moveTo env.config x y nextMove) = mover env x y s
    ∧ env.ops.isAlive
        ((cellStep env nextMove x y s).newPeople (moveTo env.config x y nextMove)) = true
    ∧ (cellStep env nextMove x y s).newPeople (cellOf x y) = env.ops.kill (mover env x y s)
    ∧ env.ops.isAlive ((cellStep env nextMove x y s).newPeople (cellOf x y)) = false
    ∧ (∀ f : P → P → P × P,
        cellStep { env with ops := { env.ops with fight := f } } nextMove x y s
          = cellStep env nextMove x y s) := by
  have hne := occupant_ne_src env nextMove x y s hdiff
  have hnp : ¬ env.ops.getProduction (mover env x y s)
      ≥ toUInt32 env.config.reproductionThreshold := by omega
  have hstep := cellStep_free env nextMove x y s halive hsurv hland hdiff hempty
  have hdst : (cellStep env nextMove x y s).newPeople (moveTo env.config x y nextMove)
      = mover env x y s := by
    rw [hstep]
    simp [relocate, endAlive, hnp, Grid.set_other _ _ _ _ hne]
  have hsrc : (cellStep env nextMove x y s).newPeople (cellOf x y)
      = env.ops.kill (mover env x y s) := by
    rw [hstep]
    simp [relocate, endAlive, hnp]
  refine ⟨hne, hdst, ?_, hsrc, ?_, ?_⟩
  · rw [hdst]; exact hsurv
  · rw [hsrc]; exact hkill
  · intro f
    rw [hstep]
    rw [cellStep_free { env with ops := { env.ops with fight := f } } nextMove x y s
      halive hsurv hland hdiff hempty]
    rfl

/-- Witness of C11 on the demo board: the agent of `(2, 2)`, with production
2, moves down onto the empty cell `(2, 3)` and leaves a dead slot behind. -/
theorem relocation_without_fight_witness :
    moveTo demoEnv.config 2 2 (0, 1) ≠ cellOf 2 2
    ∧ (cellStep demoEnv (0, 1) 2 2 demoStart).newPeople (moveTo demoEnv.config 2 2 (0, 1))
        = mover demoEnv 2 2 demoStart
    ∧ demoEnv.ops.isAlive ((cellStep demoEnv (0, 1) 2 2 demoStart).newPeople (cellOf 2 2))
        = false := by
  have h := relocation_without_fight demoEnv (0, 1) 2 2 demoStart
    (by decide) (by decide) (by decide) (by decide) (by decide) (by decide) (by decide)
  exact ⟨h.1, h.2.1, h.2.2.2.2.1⟩

theorem fighter_of_alive {P : Type} (env : Env P) (nextMove : Int × Int) (x y : Nat)
    (s : TickState P) (h : env.ops.isAlive (occupant env nextMove x y s) = true) :
    fighter env nextMove x y s
      = (env.ops.fight (mover env x y s) (occupant env nextMove x y s)).1 := by
  simp [fighter, h]

theorem fighter_of_dead {P : Type} (env : Env P) (nextMove : Int × Int) (x y : Nat)
    (s : TickState P) (h : env.ops.isAlive (occupant env nextMove x y s) = false) :
    fighter env nextMove x y s = mover env x y s := by
  simp [fighter, h]

/-- The next-generation grid after a relocation: the mover, as it stands after
any fight, at the destination; at `(x, y)` the child when the production has
reached the threshold and the killed slot otherwise. -/
theorem cellStep_relocated {P : Type} (env : Env P) (nextMove : Int × Int) (x y : Nat)
    (s : TickState P)
    (halive : env.ops.isAlive (s.people (cellOf x y)) = true)
    (hsurv : env.ops.isAlive (mover env x y s) = true)
    (hland : env.isWaterAt (moveTo env.config x y nextMove).1
      (moveTo env.config x y nextMove).2 = false)
    (hdiff : env.ops.getColony (occupant env nextMove x y s)
      ≠ env.ops.getColony (mover env x y s))
    (hafter : env.ops.isAlive (fighter env nextMove x y s) = true) :
    (cellStep env nextMove x y s).newPeople (moveTo env.config x y nextMove)
        = fighter env nextMove x y s
    ∧ (cellStep env nextMove x y s).newPeople (cellOf x y)
        = (if env.ops.getProduction (fighter env nextMove x y s)
              ≥ toUInt32 env.config.reproductionThreshold
           then env.ops.init (env.ops.getChild (fighter env nextMove x y s)).2
              (env.ops.getChild (fighter env nextMove x y s)).1
           else env.ops.kill (fighter env nextMove x y s))
    ∧ (cellStep env nextMove x y s).people (cellOf x y)
        = (cellStep env nextMove x y s).newPeople (cellOf x y)
    ∧ (cellStep env nextMove x y s).stats
        = s.stats.update (env.ops.getColony (mover env x y s))
            (env.ops.getStrength (mover env x y s))
    ∧ (cellStep env nextMove x y s).image
        = s.image.setPixel x y (env.colour (env.ops.getColony
            ((cellStep env nextMove x y s).people (cellOf x y)))) := by
  have hne := occupant_ne_src env nextMove x y s hdiff
  by_cases hocc : env.ops.isAlive (occupant env nextMove x y s) = true
  · rw [fighter_of_alive env nextMove x y s hocc] at hafter ⊢
    rw [cellStep_won env nextMove x y s halive hsurv hland hdiff hocc hafter]
    by_cases hp : env.ops.getProduction
        (env.ops.fight (mover env x y s) (occupant env nextMove x y s)).1
          ≥ toUInt32 env.config.reproductionThreshold
    · simp [relocate, endAlive, getColorAt, hp, Grid.set_other _ _ _ _ hne,
        Grid.set_other _ _ _ _ hne.symm]
    · simp [relocate, endAlive, getColorAt, hp, Grid.set_other _ _ _ _ hne,
        Grid.set_other _ _ _ _ hne.symm]
  · have hfree : env.ops.isAlive (occupant env nextMove x y s) = false := by simpa using hocc
    rw [fighter_of_dead env nextMove x y s hfree] at hafter ⊢
    rw [cellStep_free env nextMove x y s halive hsurv hland hdiff hfree]
    by_cases hp : env.ops.getProduction (mover env x y s)
          ≥ toUInt32 env.config.reproductionThreshold
    · simp [relocate, endAlive, getColorAt, hp, Grid.set_other _ _ _ _ hne]
    · simp [relocate, endAlive, getColorAt, hp, Grid.set_other _ _ _ _ hne]

/-- C12: when the mover relocates (destination not water, occupant of another
colony id, mover alive after any fight) and its production is at least the
reproduction threshold, the next-generation grid afterwards holds the mover
itself at the destination and, at the mover's original cell, the agent
obtained by `init` on the mover's child data; that agent is alive and of the
mover's colony given that `init` makes the slot a living agent of the colony
of the child data (`hinit`) and that `getChild` names the parent's colony
(`hchild`).  The destination differs from the original cell, so the child
occupies the parent's old cell. -/
theorem reproduction_in_place {P : Type} (env : Env P) (nextMove : Int × Int)
    (x y : Nat) (s : TickState P)
    (halive : env.ops.isAlive (s.people (cellOf x y)) = true)
    (hsurv : env.ops.isAlive (mover env x y s) = true)
    (hland : env.isWaterAt (moveTo env.config x y nextMove).1
      (moveTo env.config x y nextMove).2 = false)
    (hdiff : env.ops.getColony (occupant env nextMove x y s)
      ≠ env.ops.getColony (mover env x y s))
    (hafter : env.ops.isAlive (fighter env nextMove x y s) = true)
    (hprod : env.ops.getProduction (fighter env nextMove x y s)
      ≥ toUInt32 env.config.reproductionThreshold)
    (hinit : ∀ (q : P) (d : ChildData),
      env.ops.isAlive (env.ops.init q d) = true ∧ env.ops.getColony (env.ops.init q d) = d.colony)
    (hchild : ∀ q : P, (env.ops.getChild q).1.colony = env.ops.getColony q) :
    moveTo env.config x y nextMove ≠ cellOf x y
    ∧ (cellStep env nextMove x y s).newPeople (moveTo env.config x y nextMove)
        = fighter env nextMove x y s
    ∧ (cellStep env nextMove x y s).newPeople (cellOf x y)
        = env.ops.init (env.ops.getChild (fighter env nextMove x y s)).2
            (env.ops.getChild (fighter env nextMove x y s)).1
    ∧ env.ops.isAlive ((cellStep env nextMove x y s).newPeople (cellOf x y)) = true
    ∧ env.ops.getColony ((cellStep env nextMove x y s).newPeople (cellOf x y))
        = env.ops.getColony (fighter env nextMove x y s) := by
  have hne := occupant_ne_src env nextMove x y s hdiff
  have h := cellStep_relocated env nextMove x y s halive hsurv hland hdiff hafter
  have hsrc : (cellStep env nextMove x y s).newPeople (cellOf x y)
      = env.ops.init (env.ops.getChild (fighter env nextMove x y s)).2
          (env.ops.getChild (fighter env nextMove x y s)).1 := by
    rw [h.2.1, if_pos hprod]
  refine ⟨hne, h.1, hsrc, ?_, ?_⟩
  · rw [hsrc]
    exact (hinit _ _).1
  · rw [hsrc, (hinit _ _).2, hchild]

/-- Witness of C12 on the demo board: the agent of `(1, 1)` moves up, wins the
fight against the weaker agent of colony 2 at `(1, 0)` and, its production
having reached the threshold 8, leaves its child at `(1, 1)`. -/
theorem reproduction_in_place_witness :
    (cellStep demoEnv (0, -1) 1 1 demoStart).newPeople (moveTo demoEnv.config 1 1 (0, -1))
        = fighter demoEnv (0, -1) 1 1 demoStart
    ∧ demoEnv.ops.isAlive ((cellStep demoEnv (0, -1) 1 1 demoStart).newPeople (cellOf 1 1)) = true
    ∧ demoEnv.ops.getColony ((cellStep demoEnv (0, -1) 1 1 demoStart).newPeople (cellOf 1 1)) = 1 := by
  have h := reproduction_in_place demoEnv (0, -1) 1 1 demoStart
    (by decide) (by decide) (by decide) (by decide) (by decide) (by decide)
    (fun _ _ => ⟨rfl, rfl⟩) (fun _ => rfl)
  exact ⟨h.2.1, h.2.2.2.1, h.2.2.2.2.trans (by decide)⟩

/-! ## Rasterization -/

/-- C15 (counterexample): on the demo board the agent of `(1, 1)`, of colony
1, relocates to `(0, 1)`.  The pixel of the destination keeps the colour it
had before the step, which is not the colour of colony 1; the pixel that is
set is the one of the source cell `(1, 1)`. -/
theorem destination_rasterization_counterexample :
    moveTo demoEnv.config 1 1 (-1, 0) = (0, 1)
    ∧ (cellStep demoEnv (-1, 0) 1 1 demoStart).newPeople (0, 1) = mover demoEnv 1 1 demoStart
    ∧ personOps.getColony (mover demoEnv 1 1 demoStart) = 1
    ∧ (cellStep demoEnv (-1, 0) 1 1 demoStart).image (0, 1) = demoStart.image (0, 1)
    ∧ (cellStep demoEnv (-1, 0) 1 1 demoStart).image (0, 1) ≠ demoEnv.colour 1
    ∧ (cellStep demoEnv (-1, 0) 1 1 demoStart).image (1, 1) = demoEnv.colour 1 := by
  decide

/-- C15 (amended): in a cell step in which the agent relocates (destination
not water, occupant of another colony id, mover alive after any fight), the
destination differs from the source and the step sets exactly one pixel, the
one of the source cell `(x, y)`, to the colour `getColorAt(x, y)` of the slot
the step leaves at `(x, y)` in the current grid (the child or the killed
slot); every other pixel, the one of the destination included, keeps its
colour. -/
theorem relocation_rasterizes_source {P : Type} (env : Env P) (nextMove : Int × Int)
    (x y : Nat) (s : TickState P)
    (halive : env.ops.isAlive (s.people (cellOf x y)) = true)
    (hsurv : env.ops.isAlive (mover env x y s) = true)
    (hland : env.isWaterAt (moveTo env.config x y nextMove).1
      (moveTo env.config x y nextMove).2 = false)
    (hdiff : env.ops.getColony (occupant env nextMove x y s)
      ≠ env.ops.getColony (mover env x y s))
    (hafter : env.ops.isAlive (fighter env nextMove x y s) = true) :
    moveTo env.config x y nextMove ≠ cellOf x y
    ∧ (cellStep env nextMove x y s).image (x, y)
        = getColorAt env (cellStep env nextMove x y s).people x y
    ∧ (∀ px : Nat × Nat, px ≠ (x, y) → (cellStep env nextMove x y s).image px = s.image px)
    ∧ (∀ a b : Nat, cellOf a b = moveTo env.config x y nextMove →
        (cellStep env nextMove x y s).image (a, b) = s.image (a, b)) := by
  have hne := occupant_ne_src env nextMove x y s hdiff
  have h := cellStep_relocated env nextMove x y s halive hsurv hland hdiff hafter
  have himg := h.2.2.2.2
  have hother : ∀ px : Nat × Nat, px ≠ (x, y) →
      (cellStep env nextMove x y s).image px = s.image px := by
    intro px hpx
    rw [himg]
    simp [Image.setPixel, hpx]
  refine ⟨hne, ?_, hother, ?_⟩
  · rw [himg]
    simp [Image.setPixel, getColorAt]
  · intro a b hab
    apply hother
    intro heq
    apply hne
    rw [← hab]
    simp only [Prod.mk.injEq] at heq
    rw [heq.1, heq.2]

/-- Witness of C15 (amended) on the demo board: the agent of `(1, 1)` relocates
to `(0, 1)`; the pixel of `(0, 1)` is not touched. -/
theorem relocation_rasterizes_source_witness :
    (cellStep demoEnv (-1, 0) 1 1 demoStart).image (1, 1)
        = getColorAt demoEnv (cellStep demoEnv (-1, 0) 1 1 demoStart).people 1 1
    ∧ (cellStep demoEnv (-1, 0) 1 1 demoStart).image (0, 1) = demoStart.image (0, 1) := by
  have h := relocation_rasterizes_source demoEnv (-1, 0) 1 1 demoStart
    (by decide) (by decide) (by decide) (by decide) (by decide)
  exact ⟨h.2.1, h.2.2.2 0 1 (by decide)⟩

/-! ## Registry recording of one step -/

/-- C16: a cell step calls the registry update exactly once, with the colony
id and the strength the agent had right after `update()`, when the agent ends
the step alive: it stays at water, it stays at an occupant of its own colony,
or it relocates (alive after any fight, with or without reproduction).  The
registry is left as it was when the cell holds no living agent, when the
agent dies in `update()` and when it dies in the fight. -/
theorem registry_recording_per_step {P : Type} (env : Env P) (nextMove : Int × Int)
    (x y : Nat) (s : TickState P) :
    (env.ops.isAlive (s.people (cellOf x y)) = false →
      (cellStep env nextMove x y s).stats = s.stats)
    ∧ (env.ops.isAlive (s.people (cellOf x y)) = true →
        env.ops.isAlive (mover env x y s) = false →
        (cellStep env nextMove x y s).stats = s.stats)
    ∧ (env.ops.isAlive (s.people (cellOf x y)) = true →
        env.ops.isAlive (mover env x y s) = true →
        env.isWaterAt (moveTo env.config x y nextMove).1 (moveTo env.config x y nextMove).2 = true →
        (cellStep env nextMove x y s).stats
          = s.stats.update (env.ops.getColony (mover env x y s))
              (env.ops.getStrength (mover env x y s)))
    ∧ (env.ops.isAlive (s.people (cellOf x y)) = true →
        env.ops.isAlive (mover env x y s) = true →
        env.isWaterAt (moveTo env.config x y nextMove).1 (moveTo env.config x y nextMove).2 = false →
        env.ops.getColony (occupant env nextMove x y s) = env.ops.getColony (mover env x y s) →
        (cellStep env nextMove x y s).stats
          = s.stats.update (env.ops.getColony (mover env x y s))
              (env.ops.getStrength (mover env x y s)))
    ∧ (env.ops.isAlive (s.people (cellOf x y)) = true →
        env.ops.isAlive (mover env x y s) = true →
        env.isWaterAt (moveTo env.config x y nextMove).1 (moveTo env.config x y nextMove).2 = false →
        env.ops.getColony (occupant env nextMove x y s) ≠ env.ops.getColony (mover env x y s) →
        env.ops.isAlive (fighter env nextMove x y s) = true →
        (cellStep env nextMove x y s).stats
          = s.stats.update (env.ops.getColony (mover env x y s))
              (env.ops.getStrength (mover env x y s)))
    ∧ (env.ops.isAlive (s.people (cellOf x y)) = true →
        env.ops.isAlive (mover env x y s) = true →
        env.isWaterAt (moveTo env.config x y nextMove).1 (moveTo env.config x y nextMove).2 = false →
        env.ops.getColony (occupant env nextMove x y s) ≠ env.ops.getColony (mover env x y s) →
        env.ops.isAlive (occupant env nextMove x y s) = true →
        env.ops.isAlive (fighter env nextMove x y s) = false →
        (cellStep env nextMove x y s).stats = s.stats) := by
  refine ⟨?_, ?_, ?_, ?_, ?_, ?_⟩
  · intro h
    rw [cellStep_dead env nextMove x y s h]
  · intro h1 h2
    rw [cellStep_died env nextMove x y s h1 h2]
  · intro h1 h2 h3
    rw [cellStep_water env nextMove x y s h1 h2 h3]
    rfl
  · intro h1 h2 h3 h4
    rw [cellStep_same env nextMove x y s h1 h2 h3 h4]
    rfl
  · intro h1 h2 h3 h4 h5
    exact (cellStep_relocated env nextMove x y s h1 h2 h3 h4 h5).2.2.2.1
  · intro h1 h2 h3 h4 h5 h6
    rw [fighter_of_alive env nextMove x y s h5] at h6
    rw [cellStep_lost env nextMove x y s h1 h2 h3 h4 h5 h6]
    rfl

/-- Witness of C16 on the demo board: the agent of `(1, 1)` is recorded once,
with colony 1 and strength 5, when it wins its fight at `(1, 0)`, and not at
all when it loses its fight at `(2, 1)`; the visit of the empty cell `(0, 0)`
records nothing. -/
theorem registry_recording_per_step_witness :
    (cellStep demoEnv (0, -1) 1 1 demoStart).stats = demoStart.stats.update 1 5
    ∧ (cellStep demoEnv (1, 0) 1 1 demoStart).stats = demoStart.stats
    ∧ (cellStep demoEnv (0, 0) 0 0 demoStart).stats = demoStart.stats :=
  ⟨(registry_recording_per_step demoEnv (0, -1) 1 1 demoStart).2.2.2.2.1
      (by decide) (by decide) (by decide) (by decide) (by decide),
   (registry_recording_per_step demoEnv (1, 0) 1 1 demoStart).2.2.2.2.2
      (by decide) (by decide) (by decide) (by decide) (by decide) (by decide),
   (registry_recording_per_step demoEnv (0, 0) 0 0 demoStart).1 (by decide)⟩

/-! ## Neighbour moves -/

theorem tryWrapAxis_neighbour (dim x : Nat) (d : Int) (h2 : 2 ≤ dim)
    (hfit : (dim : Int) < 2147483648) (hx : x < dim) (hd : -1 ≤ d ∧ d ≤ 1) :
    0 ≤ tryWrapAxis dim (toInt32 ((x : Int) + d))
    ∧ tryWrapAxis dim (toInt32 ((x : Int) + d)) < (dim : Int) := by
  have hxi : (x : Int) < (dim : Int) := by exact_mod_cast hx
  have hx0 : (0 : Int) ≤ (x : Int) := Int.ofNat_nonneg _
  have hdi : (2 : Int) ≤ (dim : Int) := by exact_mod_cast h2
  rw [toInt32_of_fits ((x : Int) + d) (by omega) (by omega)]
  simp only [tryWrapAxis]
  rw [toInt32_of_fits (dim : Int) (by omega) hfit]
  split_ifs with h1 h3
  · rw [toInt32_of_fits _ (by omega) (by omega)]
    omega
  · rw [toInt32_of_fits _ (by omega) (by omega)]
    omega
  · omega

/-- C17: on a grid with `2 <= width` and `2 <= height` (both representable as
`int`), for every cell `(x, y)` of the grid and every move `(dx, dy)` with
`dx, dy` in `{-1, 0, 1}`, `tryWrap` applied to `(x + dx, y + dy)` yields
coordinates of the grid, so the destination looked up by `World::update` is a
cell of the grid. -/
theorem neighbour_moves_stay_on_grid (cfg : Config) (x y : Nat) (dx dy : Int)
    (hw : 2 ≤ cfg.width) (hh : 2 ≤ cfg.height)
    (hwfit : (cfg.width : Int) < 2147483648) (hhfit : (cfg.height : Int) < 2147483648)
    (hx : x < cfg.width) (hy : y < cfg.height)
    (hdx : -1 ≤ dx ∧ dx ≤ 1) (hdy : -1 ≤ dy ∧ dy ≤ 1) :
    inGrid cfg (tryWrap cfg ((x : Int) + dx) ((y : Int) + dy))
    ∧ inGrid cfg (moveTo cfg x y (dx, dy)) := by
  have hX := tryWrapAxis_neighbour cfg.width x dx hw hwfit hx hdx
  have hY := tryWrapAxis_neighbour cfg.height y dy hh hhfit hy hdy
  have hxi : (x : Int) < (cfg.width : Int) := by exact_mod_cast hx
  have hyi : (y : Int) < (cfg.height : Int) := by exact_mod_cast hy
  have hx0 : (0 : Int) ≤ (x : Int) := Int.ofNat_nonneg _
  have hy0 : (0 : Int) ≤ (y : Int) := Int.ofNat_nonneg _
  have hm : moveTo cfg x y (dx, dy) = tryWrap cfg ((x : Int) + dx) ((y : Int) + dy) := by
    simp only [moveTo]
    rw [toInt32_of_fits ((x : Int) + dx) (by omega) (by omega),
      toInt32_of_fits ((y : Int) + dy) (by omega) (by omega)]
  rw [hm]
  have hg : inGrid cfg (tryWrap cfg ((x : Int) + dx) ((y : Int) + dy)) := by
    rw [← hm]
    exact ⟨hX.1, hX.2, hY.1, hY.2⟩
  exact ⟨hg, hg⟩

/-- Witness of C17 on the 4 x 4 grid of the demo: the move `(-1, 1)` from the
corner `(0, 3)` is wrapped to `(2, 0)`, a cell of the grid. -/
theorem neighbour_moves_stay_on_grid_witness :
    tryWrap demoEnv.config ((0 : Nat) + (-1)) ((3 : Nat) + 1) = (2, 0)
    ∧ inGrid demoEnv.config (tryWrap demoEnv.config ((0 : Nat) + (-1)) ((3 : Nat) + 1)) :=
  ⟨by decide, (neighbour_moves_stay_on_grid demoEnv.config 0 3 (-1) 1
    (by decide) (by decide) (by decide) (by decide) (by decide) (by decide)
    (by decide) (by decide)).1⟩

/-! ## Two movers, one destination -/

theorem cellStep_free_frame {P : Type} (env : Env P) (nextMove : Int × Int) (x y : Nat)
    (s : TickState P)
    (halive : env.ops.isAlive (s.people (cellOf x y)) = true)
    (hsurv : env.ops.isAlive (mover env x y s) = true)
    (hland : env.isWaterAt (moveTo env.config x y nextMove).1
      (moveTo env.config x y nextMove).2 = false)
    (hdiff : env.ops.getColony (occupant env nextMove x y s)
      ≠ env.ops.getColony (mover env x y s))
    (hempty : env.ops.isAlive (occupant env nextMove x y s) = false) :
    (∀ c : Cell, c ≠ cellOf x y → (cellStep env nextMove x y s).people c = s.people c)
    ∧ (cellStep env nextMove x y s).newPeople (moveTo env.config x y nextMove)
        = mover env x y s
    ∧ (cellStep env nextMove x y s).stats
        = s.stats.update (env.ops.getColony (mover env x y s))
            (env.ops.getStrength (mover env x y s)) := by
  have hne := occupant_ne_src env nextMove x y s hdiff
  have hafter : env.ops.isAlive (fighter env nextMove x y s) = true := by
    rw [fighter_of_dead env nextMove x y s hempty]
    exact hsurv
  have h := cellStep_relocated env nextMove x y s halive hsurv hland hdiff hafter
  rw [fighter_of_dead env nextMove x y s hempty] at h
  refine ⟨?_, h.1, h.2.2.2.1⟩
  intro c hc
  rw [cellStep_free env nextMove x y s halive hsurv hland hdiff hempty]
  by_cases hp : env.ops.getProduction (mover env x y s)
      ≥ toUInt32 env.config.reproductionThreshold
  · simp [relocate, endAlive, hp, Grid.set_other _ _ _ _ hc]
  · simp [relocate, endAlive, hp, Grid.set_other _ _ _ _ hc]

/-- C14: two living agents at different source cells `A` and `B`, both alive
after `update()`, relocate to the same destination, a non-water cell that is
empty in the current grid (a non-living slot whose colony id is neither
agent's).  When the step of `A` runs first and the step of `B` second, the
next-generation grid at the destination holds the agent of `B`, the one
processed later; the registry has recorded `A` and then `B`, each with its
colony id and strength after `update()`; and the two steps are the same for
every `fight`, so no fight is invoked. -/
theorem last_writer_wins {P : Type} (env : Env P) (mA mB : Int × Int)
    (xA yA xB yB : Nat) (s : TickState P)
    (hsrc : cellOf xA yA ≠ cellOf xB yB)
    (haliveA : env.ops.isAlive (s.people (cellOf xA yA)) = true)
    (haliveB : env.ops.isAlive (s.people (cellOf xB yB)) = true)
    (hsurvA : env.ops.isAlive (mover env xA yA s) = true)
    (hsurvB : env.ops.isAlive (mover env xB yB s) = true)
    (hsame : moveTo env.config xA yA mA = moveTo env.config xB yB mB)
    (hland : env.isWaterAt (moveTo env.config xB yB mB).1
      (moveTo env.config xB yB mB).2 = false)
    (hempty : env.ops.isAlive (s.people (moveTo env.config xB yB mB)) = false)
    (hdiffA : env.ops.getColony (s.people (moveTo env.config xB yB mB))
      ≠ env.ops.getColony (mover env xA yA s))
    (hdiffB : env.ops.getColony (s.people (moveTo env.config xB yB mB))
      ≠ env.ops.getColony (mover env xB yB s)) :
    (cellStep env mB xB yB (cellStep env mA xA yA s)).newPeople (moveTo env.config xB yB mB)
        = mover env xB yB s
    ∧ (cellStep env mB xB yB (cellStep env mA xA yA s)).stats
        = (s.stats.update (env.ops.getColony (mover env xA yA s))
            (env.ops.getStrength (mover env xA yA s))).update
              (env.ops.getColony (mover env xB yB s)) (env.ops.getStrength (mover env xB yB s))
    ∧ (∀ f : P → P → P × P,
        cellStep { env with ops := { env.ops with fight := f } } mB xB yB
            (cellStep { env with ops := { env.ops with fight := f } } mA xA yA s)
          = cellStep env mB xB yB (cellStep env mA xA yA s)) := by
  have hdA : moveTo env.config xB yB mB ≠ cellOf xA yA := by
    intro h
    rw [h, haliveA] at hempty
    exact Bool.noConfusion hempty
  have hdB : moveTo env.config xB yB mB ≠ cellOf xB yB := by
    intro h
    rw [h, haliveB] at hempty
    exact Bool.noConfusion hempty
  have hoccA : occupant env mA xA yA s = s.people (moveTo env.config xB yB mB) := by
    rw [occupant_of_ne env mA xA yA s (by rw [hsame]; exact hdA), hsame]
  have hoccB : occupant env mB xB yB s = s.people (moveTo env.config xB yB mB) :=
    occupant_of_ne env mB xB yB s hdB
  have hlandA : env.isWaterAt (moveTo env.config xA yA mA).1
      (moveTo env.config xA yA mA).2 = false := by rw [hsame]; exact hland
  have hdfA : env.ops.getColony (occupant env mA xA yA s)
      ≠ env.ops.getColony (mover env xA yA s) := by rw [hoccA]; exact hdiffA
  have hemA : env.ops.isAlive (occupant env mA xA yA s) = false := by rw [hoccA]; exact hempty
  have hA := cellStep_free_frame env mA xA yA s haliveA hsurvA hlandA hdfA hemA
  have hpB : (cellStep env mA xA yA s).people (cellOf xB yB) = s.people (cellOf xB yB) :=
    hA.1 _ hsrc.symm
  have hpD : (cellStep env mA xA yA s).people (moveTo env.config xB yB mB)
      = s.people (moveTo env.config xB yB mB) := hA.1 _ hdA
  have hmB : mover env xB yB (cellStep env mA xA yA s) = mover env xB yB s := by
    simp only [mover, hpB]
  have hoccB2 : occupant env mB xB yB (cellStep env mA xA yA s)
      = s.people (moveTo env.config xB yB mB) := by
    rw [occupant_of_ne env mB xB yB _ hdB, hpD]
  have halB : env.ops.isAlive ((cellStep env mA xA yA s).people (cellOf xB yB)) = true := by
    rw [hpB]; exact haliveB
  have hsvB : env.ops.isAlive (mover env xB yB (cellStep env mA xA yA s)) = true := by
    rw [hmB]; exact hsurvB
  have hdfB : env.ops.getColony (occupant env mB xB yB (cellStep env mA xA yA s))
      ≠ env.ops.getColony (mover env xB yB (cellStep env mA xA yA s)) := by
    rw [hoccB2, hmB]; exact hdiffB
  have hemB : env.ops.isAlive (occupant env mB xB yB (cellStep env mA xA yA s)) = false := by
    rw [hoccB2]; exact hempty
  have hB := cellStep_free_frame env mB xB yB (cellStep env mA xA yA s) halB hsvB hland hdfB hemB
  refine ⟨?_, ?_, ?_⟩
  · rw [hB.2.1, hmB]
  · rw [hB.2.2, hA.2.2, hmB]
  · intro f
    have e1 : cellStep { env with ops := { env.ops with fight := f } } mA xA yA s
        = cellStep env mA xA yA s := by
      rw [cellStep_free env mA xA yA s haliveA hsurvA hlandA hdfA hemA,
        cellStep_free { env with ops := { env.ops with fight := f } } mA xA yA s haliveA hsurvA
          hlandA hdfA hemA]
      rfl
    rw [e1]
    rw [cellStep_free env mB xB yB (cellStep env mA xA yA s) halB hsvB hland hdfB hemB,
      cellStep_free { env with ops := { env.ops with fight := f } } mB xB yB
        (cellStep env mA xA yA s) halB hsvB hland hdfB hemB]
    rfl

/-- Witness of C14 on the demo board: the agent of `(1, 1)` moves up-right and
the agent of `(2, 1)` moves up, both onto the empty cell `(2, 0)`; the agent
of `(2, 1)`, processed later, is the one the next-generation grid holds. -/
theorem last_writer_wins_witness :
    moveTo demoEnv.config 1 1 (1, -1) = (2, 0)
    ∧ (cellStep demoEnv (0, -1) 2 1 (cellStep demoEnv (1, -1) 1 1 demoStart)).newPeople
        (moveTo demoEnv.config 2 1 (0, -1)) = mover demoEnv 2 1 demoStart
    ∧ (cellStep demoEnv (0, -1) 2 1 (cellStep demoEnv (1, -1) 1 1 demoStart)).stats
        = (demoStart.stats.update 1 5).update 2 9 := by
  have h := last_writer_wins demoEnv (1, -1) (0, -1) 1 1 2 1 demoStart
    (by decide) (by decide) (by decide) (by decide) (by decide) (by decide) (by decide)
    (by decide) (by decide) (by decide)
  exact ⟨by decide, h.1, h.2.1⟩

/-! ## No agent on water -/

theorem stepEffect_movePerson_none {P : Type} (env : Env P) (water : Bool) (person0 : P)
    (lookup : P → P) (h : env.ops.isAlive (lookup (env.ops.update person0)) = false) :
    (stepEffect env water person0 lookup).movePerson = none := by
  simp only [stepEffect]
  split_ifs <;> simp_all

theorem stepEffect_newDest_none {P : Type} (env : Env P) (person0 : P) (lookup : P → P) :
    (stepEffect env true person0 lookup).newDest = none := by
  simp only [stepEffect]
  split_ifs <;> simp_all

/-- The current grid changes only at cells that hold a living agent. -/
theorem cellStep_people_dead_cell {P : Type} (env : Env P) (nextMove : Int × Int) (x y : Nat)
    (s : TickState P) (c : Cell) (hc : env.ops.isAlive (s.people c) = false) :
    (cellStep env nextMove x y s).people c = s.people c := by
  by_cases halive : env.ops.isAlive (s.people (cellOf x y)) = true
  swap
  · rw [cellStep_dead env nextMove x y s (by simpa using halive)]
  have hsrc : c ≠ cellOf x y := by
    intro h
    rw [h, halive] at hc
    exact Bool.noConfusion hc
  by_cases hd : c = moveTo env.config x y nextMove
  swap
  · exact cellStep_people_other env nextMove x y s c hsrc hd
  rw [cellStep_eq_apply]
  simp only [Effect.apply]
  rw [stepEffect_movePerson_none]
  · simp only [Grid.setOpt]
    exact Grid.setOpt_other _ _ _ _ hsrc
  · rw [← hd, Grid.set_other _ _ _ _ hsrc]
    exact hc

/-- The next-generation grid is not written at a water cell without a living
agent. -/
theorem cellStep_newPeople_water_cell {P : Type} (env : Env P) (nextMove : Int × Int)
    (x y : Nat) (s : TickState P) (c : Cell) (hc : env.ops.isAlive (s.people c) = false)
    (hw : env.isWaterAt c.1 c.2 = true) :
    (cellStep env nextMove x y s).newPeople c = s.newPeople c := by
  by_cases halive : env.ops.isAlive (s.people (cellOf x y)) = true
  swap
  · rw [cellStep_dead env nextMove x y s (by simpa using halive)]
  have hsrc : c ≠ cellOf x y := by
    intro h
    rw [h, halive] at hc
    exact Bool.noConfusion hc
  by_cases hd : c = moveTo env.config x y nextMove
  swap
  · exact cellStep_newPeople_other env nextMove x y s c hsrc hd
  rw [cellStep_eq_apply]
  simp only [Effect.apply]
  rw [Grid.setOpt_other _ _ _ _ hsrc, ← hd, hw, stepEffect_newDest_none]
  rfl

/-- At a fixed cell, "a living agent does not stand on water" holds of both
grids after a cell step when it holds of both before. -/
theorem cellStep_keeps_land {P : Type} (env : Env P) (nextMove : Int × Int) (x y : Nat)
    (s : TickState P) (c : Cell)
    (h1 : env.ops.isAlive (s.people c) = true → env.isWaterAt c.1 c.2 = false)
    (h2 : env.ops.isAlive (s.newPeople c) = true → env.isWaterAt c.1 c.2 = false) :
    (env.ops.isAlive ((cellStep env nextMove x y s).people c) = true →
      env.isWaterAt c.1 c.2 = false)
    ∧ (env.ops.isAlive ((cellStep env nextMove x y s).newPeople c) = true →
      env.isWaterAt c.1 c.2 = false) := by
  by_cases hw : env.isWaterAt c.1 c.2 = false
  · exact ⟨fun _ => hw, fun _ => hw⟩
  have hw1 : env.isWaterAt c.1 c.2 = true := by simpa using hw
  have hc : env.ops.isAlive (s.people c) = false := by
    by_cases ha : env.ops.isAlive (s.people c) = true
    · exact absurd (h1 ha) hw
    · simpa using ha
  rw [cellStep_people_dead_cell env nextMove x y s c hc,
    cellStep_newPeople_water_cell env nextMove x y s c hc hw1]
  exact ⟨h1, h2⟩

theorem randomCellForEach_keeps_land {P : Type} (env : Env P) (c : Cell) (order : List Visit) :
    ∀ s : TickState P,
      (env.ops.isAlive (s.people c) = true → env.isWaterAt c.1 c.2 = false) →
      (env.ops.isAlive (s.newPeople c) = true → env.isWaterAt c.1 c.2 = false) →
      (env.ops.isAlive
        ((randomCellForEach order (fun v t => cellStep env v.nextMove v.x v.y t) s).newPeople c)
          = true → env.isWaterAt c.1 c.2 = false) := by
  induction order with
  | nil => intro s _ h2; simpa [randomCellForEach] using h2
  | cons v vs ih =>
    intro s h1 h2
    have hrun : randomCellForEach (v :: vs) (fun v t => cellStep env v.nextMove v.x v.y t) s
        = randomCellForEach vs (fun v t => cellStep env v.nextMove v.x v.y t)
            (cellStep env v.nextMove v.x v.y s) := by
      simp [randomCellForEach]
    rw [hrun]
    have hk := cellStep_keeps_land env v.nextMove v.x v.y s c h1 h2
    exact ih _ hk.1 hk.2

/-- C18: if no living agent of the current grid stands on a water cell before
a tick, then for every visitation order, every choice of move directions and
every behaviour of `update`, `fight`, `giveDisease`, `getChild`, `init` and
`kill`, no living agent of the grid installed by `World::update` stands on a
water cell; a default-constructed agent, which fills the new grid, is not
alive (`hnew`). -/
theorem no_agent_on_water {P : Type} (env : Env P) (order : List Visit) (w : World P)
    (image : Image)
    (hnew : env.ops.isAlive env.ops.newPerson = false)
    (hland : ∀ c : Cell, inGrid env.config c →
      env.ops.isAlive (w.m_people c) = true → env.isWaterAt c.1 c.2 = false) :
    ∀ c : Cell, inGrid env.config c →
      env.ops.isAlive ((update env order w image).1.m_people c) = true →
      env.isWaterAt c.1 c.2 = false := by
  intro c hc
  simp only [update]
  apply randomCellForEach_keeps_land env c order (tickStart env w image)
  · exact hland c hc
  · intro h
    simp only [tickStart] at h
    rw [hnew] at h
    exact Bool.noConfusion h

theorem demoPeople_on_land (c : Cell)
    (h : demoEnv.ops.isAlive (demoWorld.m_people c) = true) :
    demoEnv.isWaterAt c.1 c.2 = false := by
  simp only [demoWorld, demoPeople] at h
  split_ifs at h with h1 h2 h3 h4 h5
  · rw [h1]; decide
  · rw [h2]; decide
  · rw [h3]; decide
  · rw [h4]; decide
  · rw [h5]; decide
  · exact absurd h (by decide)

/-- Witness of C18: a tick on the demo board, whose water is the column
`x = 3`, in row order with every mover going right, towards the water.  In the
new grid the land cell `(2, 2)` holds a living agent: the diseased agent of
`(1, 2)`, which moved there after its fight with the occupant. -/
theorem no_agent_on_water_witness :
    demoEnv.ops.isAlive ((update demoEnv eastOrder demoWorld blankImage).1.m_people (2, 2)) = true
    ∧ demoEnv.isWaterAt 2 2 = false :=
  ⟨by decide,
   no_agent_on_water demoEnv eastOrder demoWorld blankImage (by decide)
    (fun c _ h => demoPeople_on_land c h) (2, 2)
    ⟨by decide, by decide, by decide, by decide⟩ (by decide)⟩

/-! ## Initial placement -/

theorem intInRange_radius (raw : Nat) :
    -5 ≤ intInRange (-5) 5 raw ∧ intInRange (-5) 5 raw ≤ 5 := by
  have h : intInRange (-5) 5 raw = -5 + (raw : Int) % 11 := by
    simp [intInRange]
  rw [h]
  omega

theorem toInt32_le_self (v : Int) (h : 0 ≤ v) : toInt32 v ≤ v := by
  unfold toInt32
  omega

/-- One iteration of the inner loop either places nobody or makes one `init`
call, for colony `i`, with a healthy child, at the seed plus the two offsets,
a cell inside the bounds that is not water. -/
theorem placePerson_placed {P : Type} (env : Env P) (rand : Nat → Nat) (location : Int × Int)
    (i : Nat) (col : Colony) (st : Seeding P) :
    (placePerson env rand location i col st).placed = st.placed
    ∨ ∃ e : Cell × ChildData,
        (placePerson env rand location i col st).placed = e :: st.placed
        ∧ e.2.colony = i ∧ e.2.isDiseased = false
        ∧ e.1.1 = toInt32 (intInRange (-5) 5 (rand st.drawn) + location.1)
        ∧ e.1.2 = toInt32 (intInRange (-5) 5 (rand (st.drawn + 1)) + location.2)
        ∧ 0 ≤ e.1.1 ∧ e.1.1 < toInt32 (env.config.width : Int)
        ∧ 0 ≤ e.1.2 ∧ e.1.2 < toInt32 (env.config.height : Int)
        ∧ env.isWaterAt e.1.1 e.1.2 = false := by
  simp only [placePerson]
  split_ifs with h1 h2 h3
  · exact Or.inl rfl
  · exact Or.inl rfl
  · exact Or.inl rfl
  · refine Or.inr ⟨_, rfl, rfl, rfl, rfl, rfl, ?_, ?_, ?_, ?_, ?_⟩
    · simp only; omega
    · simp only; omega
    · simp only; omega
    · simp only; omega
    · simpa using h3

theorem placePerson_wellPlaced {P : Type} (env : Env P) (rand : Nat → Nat)
    (locations : Nat → Int × Int) (i : Nat) (col : Colony) (st : Seeding P) (hi : 1 ≤ i)
    (hloc : -2147483643 ≤ (locations i).1 ∧ (locations i).1 < 2147483643
      ∧ -2147483643 ≤ (locations i).2 ∧ (locations i).2 < 2147483643)
    (hst : ∀ e ∈ st.placed, wellPlaced env locations e) :
    ∀ e ∈ (placePerson env rand (locations i) i col st).placed, wellPlaced env locations e := by
  rcases placePerson_placed env rand (locations i) i col st with h | ⟨e, h, hc, hd, hx, hy, h0, h1, h2, h3, h4⟩
  · rw [h]; exact hst
  · rw [h]
    intro e2 he2
    rcases List.mem_cons.mp he2 with rfl | hmem
    swap
    · exact hst e2 hmem
    have hrx := intInRange_radius (rand st.drawn)
    have hry := intInRange_radius (rand (st.drawn + 1))
    rw [toInt32_of_fits _ (by omega) (by omega)] at hx
    rw [toInt32_of_fits _ (by omega) (by omega)] at hy
    have hw := toInt32_le_self (env.config.width : Int) (Int.ofNat_nonneg _)
    have hh := toInt32_le_self (env.config.height : Int) (Int.ofNat_nonneg _)
    refine ⟨⟨h0, by omega, h2, by omega⟩, h4, ?_, ?_, by omega, hd⟩
    · rw [hc, hx]; omega
    · rw [hc, hy]; omega

theorem placePerson_placedFor {P : Type} (env : Env P) (rand : Nat → Nat) (location : Int × Int)
    (i : Nat) (col : Colony) (st : Seeding P) (k : Nat) :
    placedFor (placePerson env rand location i col st).placed k
      ≤ placedFor st.placed k + (if k = i then 1 else 0) := by
  rcases placePerson_placed env rand location i col st with h | ⟨e, h, hc, _⟩
  · rw [h]; omega
  · rw [h]
    simp only [placedFor, List.countP_cons, hc]
    by_cases hk : k = i
    · simp [hk]
    · have hk2 : ¬ i = k := fun h3 => hk h3.symm
      simp [hk, hk2]

theorem placeColony_wellPlaced {P : Type} (env : Env P) (rand : Nat → Nat)
    (locations : Nat → Int × Int) (i : Nat) (col : Colony) (hi : 1 ≤ i)
    (hloc : -2147483643 ≤ (locations i).1 ∧ (locations i).1 < 2147483643
      ∧ -2147483643 ≤ (locations i).2 ∧ (locations i).2 < 2147483643)
    (count : Nat) :
    ∀ st : Seeding P, (∀ e ∈ st.placed, wellPlaced env locations e) →
      ∀ e ∈ (placeColony env rand (locations i) i col count st).placed,
        wellPlaced env locations e := by
  induction count with
  | zero => intro st hst; simpa [placeColony] using hst
  | succ n ih =>
    intro st hst
    simp only [placeColony]
    exact ih _ (placePerson_wellPlaced env rand locations i col st hi hloc hst)

theorem placeColony_placedFor {P : Type} (env : Env P) (rand : Nat → Nat) (location : Int × Int)
    (i : Nat) (col : Colony) (k : Nat) (count : Nat) :
    ∀ st : Seeding P, placedFor (placeColony env rand location i col count st).placed k
      ≤ placedFor st.placed k + (if k = i then count else 0) := by
  induction count with
  | zero => intro st; simp [placeColony]
  | succ n ih =>
    intro st
    simp only [placeColony]
    have h1 := ih (placePerson env rand location i col st)
    have h2 := placePerson_placedFor env rand location i col st k
    split_ifs at h1 h2 ⊢ <;> omega

theorem placeColonies_wellPlaced {P : Type} (env : Env P) (rand : Nat → Nat)
    (locations : Nat → Int × Int)
    (hloc : ∀ i : Nat, -2147483643 ≤ (locations i).1 ∧ (locations i).1 < 2147483643
      ∧ -2147483643 ≤ (locations i).2 ∧ (locations i).2 < 2147483643)
    (rest : List Colony) :
    ∀ (i : Nat) (st : Seeding P), 1 ≤ i → (∀ e ∈ st.placed, wellPlaced env locations e) →
      ∀ e ∈ (placeColonies env rand locations i rest st).placed, wellPlaced env locations e := by
  induction rest with
  | nil => intro i st _ hst; simpa [placeColonies] using hst
  | cons col rest ih =>
    intro i st hi hst
    simp only [placeColonies]
    exact ih (i + 1) _ (by omega)
      (placeColony_wellPlaced env rand locations i col hi (hloc i) col.startPeople st hst)

theorem placeColonies_placedFor {P : Type} (env : Env P) (rand : Nat → Nat)
    (locations : Nat → Int × Int) (k : Nat) (rest : List Colony) :
    ∀ (i : Nat) (st : Seeding P),
      placedFor (placeColonies env rand locations i rest st).placed k
        ≤ placedFor st.placed k
          + (if i ≤ k then ((rest[k - i]?).map Colony.startPeople).getD 0 else 0) := by
  induction rest with
  | nil => intro i st; simp [placeColonies]
  | cons col rest ih =>
    intro i st
    simp only [placeColonies]
    have h1 := ih (i + 1) (placeColony env rand (locations i) i col col.startPeople st)
    have h2 := placeColony_placedFor env rand (locations i) i col k col.startPeople st
    by_cases hik : i ≤ k
    · by_cases heq : k = i
      · subst heq
        simp at h1 h2 ⊢
        omega
      · have hlt : i + 1 ≤ k := by omega
        have hidx : k - i = (k - (i + 1)) + 1 := by omega
        rw [if_pos hik, hidx, List.getElem?_cons_succ]
        rw [if_pos hlt] at h1
        rw [if_neg heq] at h2
        omega
    · have hne : ¬ k = i := by omega
      have hlt : ¬ i + 1 ≤ k := by omega
      rw [if_neg hik]
      rw [if_neg hlt] at h1
      rw [if_neg hne] at h2
      omega
theorem placePerson_people_other {P : Type} (env : Env P) (rand : Nat → Nat)
    (location : Int × Int) (i : Nat) (col : Colony) (st : Seeding P) (c : Cell)
    (hc : ∀ e ∈ (placePerson env rand location i col st).placed, e.1 ≠ c) :
    (placePerson env rand location i col st).people c = st.people c
    ∧ ∀ e ∈ st.placed, e.1 ≠ c := by
  simp only [placePerson] at hc ⊢
  split_ifs at hc ⊢ with h1 h2 h3
  · exact ⟨rfl, hc⟩
  · exact ⟨rfl, hc⟩
  · exact ⟨rfl, hc⟩
  · refine ⟨?_, fun e he => hc e (List.mem_cons_of_mem _ he)⟩
    have hne := hc _ (List.mem_cons_self _ _)
    exact Grid.set_other _ _ _ _ (fun h => hne h.symm)

theorem placeColony_people_other {P : Type} (env : Env P) (rand : Nat → Nat)
    (location : Int × Int) (i : Nat) (col : Colony) (c : Cell) (count : Nat) :
    ∀ st : Seeding P,
      (∀ e ∈ (placeColony env rand location i col count st).placed, e.1 ≠ c) →
      (placeColony env rand location i col count st).people c = st.people c
      ∧ ∀ e ∈ st.placed, e.1 ≠ c := by
  induction count with
  | zero => intro st hc; exact ⟨rfl, hc⟩
  | succ n ih =>
    intro st hc
    simp only [placeColony] at hc ⊢
    have h1 := ih _ hc
    have h2 := placePerson_people_other env rand location i col st c h1.2
    exact ⟨h1.1.trans h2.1, h2.2⟩

theorem placeColonies_people_other {P : Type} (env : Env P) (rand : Nat → Nat)
    (locations : Nat → Int × Int) (c : Cell) (rest : List Colony) :
    ∀ (i : Nat) (st : Seeding P),
      (∀ e ∈ (placeColonies env rand locations i rest st).placed, e.1 ≠ c) →
      (placeColonies env rand locations i rest st).people c = st.people c
      ∧ ∀ e ∈ st.placed, e.1 ≠ c := by
  induction rest with
  | nil => intro i st hc; exact ⟨rfl, hc⟩
  | cons col rest ih =>
    intro i st hc
    simp only [placeColonies] at hc ⊢
    have h1 := ih (i + 1) _ hc
    have h2 := placeColony_people_other env rand (locations i) i col c col.startPeople st h1.2
    exact ⟨h1.1.trans h2.1, h2.2⟩

theorem tail_getElem? (l : List Colony) (k : Nat) (hk : 1 ≤ k) : l.tail[k - 1]? = l[k]? := by
  cases l with
  | nil => simp
  | cons a l =>
    have h : k = (k - 1) + 1 := by omega
    rw [List.tail_cons]
    conv_rhs => rw [h, List.getElem?_cons_succ]

theorem placePerson_replay {P : Type} (env : Env P) (rand : Nat → Nat) (location : Int × Int)
    (i : Nat) (col : Colony) (st : Seeding P) (people : Grid P)
    (h : st.people = replayInit env.ops st.placed people) :
    (placePerson env rand location i col st).people
      = replayInit env.ops (placePerson env rand location i col st).placed people := by
  simp only [placePerson]
  split_ifs with h1 h2 h3
  · exact h
  · exact h
  · exact h
  · simp only [replayInit, ← h]

theorem placeColony_replay {P : Type} (env : Env P) (rand : Nat → Nat) (location : Int × Int)
    (i : Nat) (col : Colony) (people : Grid P) (count : Nat) :
    ∀ st : Seeding P, st.people = replayInit env.ops st.placed people →
      (placeColony env rand location i col count st).people
        = replayInit env.ops (placeColony env rand location i col count st).placed people := by
  induction count with
  | zero => intro st h; exact h
  | succ n ih =>
    intro st h
    simp only [placeColony]
    exact ih _ (placePerson_replay env rand location i col st people h)

theorem placeColonies_replay {P : Type} (env : Env P) (rand : Nat → Nat)
    (locations : Nat → Int × Int) (people : Grid P) (rest : List Colony) :
    ∀ (i : Nat) (st : Seeding P), st.people = replayInit env.ops st.placed people →
      (placeColonies env rand locations i rest st).people
        = replayInit env.ops (placeColonies env rand locations i rest st).placed people := by
  induction rest with
  | nil => intro i st h; exact h
  | cons col rest ih =>
    intro i st h
    simp only [placeColonies]
    exact ih (i + 1) _ (placeColony_replay env rand (locations i) i col people col.startPeople st h)

/-- After a trace of `init` calls has been carried out, the slot of a cell of
the trace is the result of `init` with the child data of a call of the trace
at that cell. -/
theorem replayInit_at_placed {P : Type} (ops : PersonOps P) (people : Grid P) (c : Cell) :
    ∀ placed : List (Cell × ChildData), (∃ e ∈ placed, e.1 = c) →
      ∃ (q : P) (d : ChildData), (c, d) ∈ placed ∧ replayInit ops placed people c = ops.init q d := by
  intro placed
  induction placed with
  | nil => intro h; obtain ⟨e, he, _⟩ := h; simp at he
  | cons e rest ih =>
    intro h
    by_cases hc : e.1 = c
    · refine ⟨replayInit ops rest people e.1, e.2, ?_, ?_⟩
      · rw [← hc]
        exact List.mem_cons_self _ _
      · simp only [replayInit]
        rw [← hc]
        exact Grid.set_same _ _ _
    · obtain ⟨e2, he2, hc2⟩ := h
      have hrest : ∃ e3 ∈ rest, e3.1 = c := by
        rcases List.mem_cons.mp he2 with h3 | h3
        · rw [h3] at hc2
          exact absurd hc2 hc
        · exact ⟨e2, h3, hc2⟩
      obtain ⟨q, d, hmem, hval⟩ := ih hrest
      refine ⟨q, d, List.mem_cons_of_mem _ hmem, ?_⟩
      simp only [replayInit]
      rw [Grid.set_other _ _ _ _ (fun h4 => hc h4.symm)]
      exact hval

/-- C13: for every raw random stream, `m_people` after
`World::createColonies` is the initial grid with the trace of calls
`m_people(c).init(data)` carried out.  Every call is made on a cell inside
`[0, width) x [0, height)` that is not water and lies at most 5 cells away in
each axis from the seed location of the colony of its child data, whose
colony id is at least 1 and which is not diseased.  The slot `m_people` holds
at such a cell is the result of `init` with the child data of a call made
there; given that `init` gives the slot the colony id and the disease flag of
the child data, the agent there has a colony id of at least 1, is not
diseased and is at most 5 cells away in each axis from the seed of its
colony.  A cell outside the trace keeps the agent it had, so an offset that
lands out of bounds or on water places no agent (no wrap is applied); and
colony `i` receives at most `startPeople` agents.  The seed coordinates are
such that adding an offset does not overflow an `int`. -/
theorem initial_placement {P : Type} (env : Env P) (locations : Nat → Int × Int)
    (colonies : List Colony) (rand : Nat → Nat) (people : Grid P)
    (hloc : ∀ i : Nat, -2147483643 ≤ (locations i).1 ∧ (locations i).1 < 2147483643
      ∧ -2147483643 ≤ (locations i).2 ∧ (locations i).2 < 2147483643) :
    (createColonies env locations colonies rand people).people
        = replayInit env.ops (createColonies env locations colonies rand people).placed people
    ∧ (∀ e ∈ (createColonies env locations colonies rand people).placed,
      (0 ≤ e.1.1 ∧ e.1.1 < (env.config.width : Int)
        ∧ 0 ≤ e.1.2 ∧ e.1.2 < (env.config.height : Int))
      ∧ env.isWaterAt e.1.1 e.1.2 = false
      ∧ (-5 ≤ e.1.1 - (locations e.2.colony).1 ∧ e.1.1 - (locations e.2.colony).1 ≤ 5)
      ∧ (-5 ≤ e.1.2 - (locations e.2.colony).2 ∧ e.1.2 - (locations e.2.colony).2 ≤ 5)
      ∧ 1 ≤ e.2.colony
      ∧ e.2.isDiseased = false)
    ∧ (∀ e ∈ (createColonies env locations colonies rand people).placed,
        ∃ (q : P) (d : ChildData),
          (e.1, d) ∈ (createColonies env locations colonies rand people).placed
          ∧ (createColonies env locations colonies rand people).people e.1 = env.ops.init q d)
    ∧ ((∀ (q : P) (d : ChildData), env.ops.getColony (env.ops.init q d) = d.colony
          ∧ env.ops.isDiseased (env.ops.init q d) = d.isDiseased) →
        ∀ e ∈ (createColonies env locations colonies rand people).placed,
          1 ≤ env.ops.getColony ((createColonies env locations colonies rand people).people e.1)
          ∧ env.ops.isDiseased
              ((createColonies env locations colonies rand people).people e.1) = false
          ∧ (-5 ≤ e.1.1 - (locations (env.ops.getColony
                ((createColonies env locations colonies rand people).people e.1))).1
              ∧ e.1.1 - (locations (env.ops.getColony
                ((createColonies env locations colonies rand people).people e.1))).1 ≤ 5)
          ∧ (-5 ≤ e.1.2 - (locations (env.ops.getColony
                ((createColonies env locations colonies rand people).people e.1))).2
              ∧ e.1.2 - (locations (env.ops.getColony
                ((createColonies env locations colonies rand people).people e.1))).2 ≤ 5))
    ∧ (∀ c : Cell,
        (∀ e ∈ (createColonies env locations colonies rand people).placed, e.1 ≠ c) →
        (createColonies env locations colonies rand people).people c = people c)
    ∧ (∀ i : Nat, placedFor (createColonies env locations colonies rand people).placed i
        ≤ ((colonies[i]?).map Colony.startPeople).getD 0) := by
  have hreplay : (createColonies env locations colonies rand people).people
      = replayInit env.ops (createColonies env locations colonies rand people).placed people :=
    placeColonies_replay env rand locations people colonies.tail 1
      { people := people, drawn := 0, placed := [] } rfl
  have hwell : ∀ e ∈ (createColonies env locations colonies rand people).placed,
      wellPlaced env locations e :=
    placeColonies_wellPlaced env rand locations hloc colonies.tail 1
      { people := people, drawn := 0, placed := [] } (by omega)
      (by intro e2 he2; simp at he2)
  have hinitAt : ∀ e ∈ (createColonies env locations colonies rand people).placed,
      ∃ (q : P) (d : ChildData),
        (e.1, d) ∈ (createColonies env locations colonies rand people).placed
        ∧ (createColonies env locations colonies rand people).people e.1 = env.ops.init q d := by
    intro e he
    rw [hreplay]
    exact replayInit_at_placed env.ops people e.1 _ ⟨e, he, rfl⟩
  refine ⟨hreplay, fun e he => hwell e he, hinitAt, ?_, ?_, ?_⟩
  · intro hinit e he
    obtain ⟨q, d, hmem, hval⟩ := hinitAt e he
    have hw := hwell (e.1, d) hmem
    rw [hval, (hinit q d).1, (hinit q d).2]
    exact ⟨hw.2.2.2.2.1, hw.2.2.2.2.2, hw.2.2.1, hw.2.2.2.1⟩
  · intro c hc
    exact (placeColonies_people_other env rand locations c colonies.tail 1
      { people := people, drawn := 0, placed := [] } hc).1
  · intro i
    have h := placeColonies_placedFor env rand locations i colonies.tail 1
      { people := people, drawn := 0, placed := [] }
    simp only [createColonies]
    by_cases hi : 1 ≤ i
    · rw [if_pos hi, tail_getElem? colonies i hi] at h
      simpa [placedFor] using h
    · rw [if_neg hi] at h
      have h0 : placedFor ({ people := people, drawn := 0, placed := [] } : Seeding P).placed i
          = 0 := by simp [placedFor]
      omega

/-- Witness of C13: the seeding of the demo world.  Colony 2, whose seed is
`(2, 2)` and which starts with 2 people, gets one agent, at `(1, 2)`: the slot
of `m_people` there is a healthy agent of colony 2; its other draw is
skipped. -/
theorem initial_placement_witness :
    (((1, 2), { strength := 9, isDiseased := false, colony := 2 }) : Cell × ChildData)
        ∈ (createColonies demoEnv demoLocations demoColonies demoRand
            (fun _ => personOps.newPerson)).placed
    ∧ demoEnv.isWaterAt 1 2 = false
    ∧ 1 ≤ demoEnv.ops.getColony ((createColonies demoEnv demoLocations demoColonies demoRand
        (fun _ => personOps.newPerson)).people (1, 2))
    ∧ demoEnv.ops.isDiseased ((createColonies demoEnv demoLocations demoColonies demoRand
        (fun _ => personOps.newPerson)).people (1, 2)) = false
    ∧ placedFor (createColonies demoEnv demoLocations demoColonies demoRand
        (fun _ => personOps.newPerson)).placed 2 ≤ 2 := by
  have h := initial_placement demoEnv demoLocations demoColonies demoRand
    (fun _ => personOps.newPerson)
    (by intro i; simp only [demoLocations]; split_ifs <;> decide)
  have ha := h.2.2.2.1 (fun _ _ => ⟨rfl, rfl⟩)
    ((1, 2), { strength := 9, isDiseased := false, colony := 2 }) (by decide)
  exact ⟨by decide,
    (h.2.1 ((1, 2), { strength := 9, isDiseased := false, colony := 2 }) (by decide)).2.1,
    ha.1, ha.2.1, h.2.2.2.2.2 2⟩

end Empire
